import Mathlib

/-!
The last.fm music source of tuna (`src/query/lastfm_source.cpp`)

A shallow embedding of `lastfm_source::refresh`, `lastfm_source::parse_song`,
`lastfm_source::valid_format` and `lastfm_request`, followed by the properties
of the polling / rate-limit / parse pipeline.

Effects are made explicit: every function that touches the clock, the network
or the log takes a `World` and returns the next one.  A `World` records what
the program did (`trace`) and carries the environment's answers (`clock`,
`server`).
-/

namespace Tuna

/-! ## Qt JSON values

Only the part of the `QJsonValue` / `QJsonObject` / `QJsonArray` /
`QJsonDocument` interface that the source calls is embedded. Every accessor is
total, as in Qt: a lookup that fails gives `undefined`, a conversion of the
wrong type gives the empty string / array / object. -/

/-- A `QJsonValue`. The payload of a number is never inspected by this module. -/
inductive QJsonValue where
  | null
  | bool (b : Bool)
  | double (d : Rat)
  | string (s : String)
  | array (a : List QJsonValue)
  | object (o : List (String × QJsonValue))
  | undefined

/-- A `QJsonObject`: its members, looked up by key. -/
abbrev QJsonObject := List (String × QJsonValue)

/-- A `QJsonArray`. -/
abbrev QJsonArray := List QJsonValue

/-- A `QJsonDocument`: null (nothing parsed), or a top-level array or object. -/
inductive QJsonDocument where
  | null
  | array (a : QJsonArray)
  | object (o : QJsonObject)

/-- `QJsonObject::operator[](key) const`: the member, or `undefined`. -/
def QJsonObject.value (o : QJsonObject) (key : String) : QJsonValue :=
  match o.lookup key with
  | some v => v
  | none => QJsonValue.undefined

/-- `QJsonObject::isEmpty()`. -/
def QJsonObject.isEmpty (o : QJsonObject) : Bool :=
  match o with
  | [] => true
  | _ :: _ => false

/-- `QJsonArray::operator[](i) const`: the element, or `undefined` out of bounds. -/
def QJsonArray.at (a : QJsonArray) (i : Nat) : QJsonValue :=
  match a.get? i with
  | some v => v
  | none => QJsonValue.undefined

/-- `QJsonValue::isObject()`. -/
def QJsonValue.isObject : QJsonValue → Bool
  | .object _ => true
  | _ => false

/-- `QJsonValue::isArray()`. -/
def QJsonValue.isArray : QJsonValue → Bool
  | .array _ => true
  | _ => false

/-- `QJsonValue::isString()`. -/
def QJsonValue.isString : QJsonValue → Bool
  | .string _ => true
  | _ => false

/-- `QJsonValue::toObject()`: the empty object when the value is not an object. -/
def QJsonValue.toObject : QJsonValue → QJsonObject
  | .object o => o
  | _ => []

/-- `QJsonValue::toArray()`: the empty array when the value is not an array. -/
def QJsonValue.toArray : QJsonValue → QJsonArray
  | .array a => a
  | _ => []

/-- `QJsonValue::toString()`: the empty string when the value is not a string. -/
def QJsonValue.toString : QJsonValue → String
  | .string s => s
  | _ => ""

/-- `QJsonValue::operator[](key) const`, which is `toObject().value(key)`. -/
def QJsonValue.get (v : QJsonValue) (key : String) : QJsonValue :=
  QJsonObject.value v.toObject key

/-- `QJsonDocument::isNull()`. -/
def QJsonDocument.isNull : QJsonDocument → Bool
  | .null => true
  | _ => false

/-- `QJsonDocument::operator[](key) const`, which is `object().value(key)`:
`undefined` when the document is not an object. -/
def QJsonDocument.get (d : QJsonDocument) (key : String) : QJsonValue :=
  match d with
  | .object o => QJsonObject.value o key
  | _ => QJsonValue.undefined

/-! ## The current-track record -/

/-- Modelled from the spec: the `song` class (`m_current`), whose declaration
and methods live outside `lastfm_source.cpp`. The spec's data model gives it
the six fields `playing`, `artists`, `album`, `title`, `durationSeconds` and
`coverLink`. -/
structure song where
  playing : Bool
  artists : List String
  album : String
  title : String
  durationSeconds : Int
  coverLink : String
deriving DecidableEq, Repr

/-- Modelled from the spec: the cleared value of a `song` ("cleared default":
not playing, no artist, empty strings, duration 0 = unknown). -/
def song.cleared : song :=
  { playing := false, artists := [], album := "", title := "",
    durationSeconds := 0, coverLink := "" }

/-- Modelled from the spec: `song::clear()` resets every field. -/
def song.clear (_s : song) : song := song.cleared

/-- Modelled from the spec: `song::set_playing`. -/
def song.set_playing (s : song) (p : Bool) : song := { s with playing := p }

/-- Modelled from the spec: `song::set_cover_link`. -/
def song.set_cover_link (s : song) (link : String) : song := { s with coverLink := link }

/-- Modelled from the spec: `song::append_artist` appends to the ordered sequence. -/
def song.append_artist (s : song) (a : String) : song := { s with artists := s.artists ++ [a] }

/-- Modelled from the spec: `song::set_album`. -/
def song.set_album (s : song) (a : String) : song := { s with album := a }

/-- Modelled from the spec: `song::set_title`. -/
def song.set_title (s : song) (t : String) : song := { s with title := t }

/-- Modelled from the spec: `song::set_duration`. -/
def song.set_duration (s : song) (d : Int) : song := { s with durationSeconds := d }

/-! ## The environment -/

/-- What the program did to the outside world, in order. -/
inductive Event where
  /-- One `curl_easy_perform` on this URL. -/
  | request (url : String)
  /-- One call of `util::download_cover(m_current)` with this record. -/
  | download_cover (s : song)
  /-- One `berr` log line; only the format string is recorded. -/
  | berr (fmt : String)
deriving DecidableEq, Repr

/-- The outcome of one `curl_easy_perform` as `lastfm_request` sees it. -/
structure CurlReply where
  /-- Is `res == CURLE_OK`. -/
  res_ok : Bool
  /-- The value of `CURLINFO_RESPONSE_CODE`. -/
  http_code : Int
  /-- Is `response.empty()`. -/
  body_empty : Bool
  /-- The value of `QJsonDocument::fromJson(response)`: null when the body does not parse. -/
  json : QJsonDocument

/-- The outside world: a clock, a server, and the record of what was done. -/
structure World where
  /-- The successive readings of the monotonic clock, in nanoseconds. -/
  clock : Nat → Nat
  /-- How many readings have been taken. -/
  ticks : Nat
  /-- The outcome of the transfer for a URL, given how many transfers came before. -/
  server : Nat → String → CurlReply
  /-- The events so far, oldest first. -/
  trace : List Event

/-- The URLs requested so far, oldest first. -/
def requests (w : World) : List String :=
  w.trace.filterMap fun e =>
    match e with
    | Event.request url => some url
    | _ => none

/-- The records handed to the cover downloader so far, oldest first. -/
def cover_downloads (w : World) : List song :=
  w.trace.filterMap fun e =>
    match e with
    | Event.download_cover s => some s
    | _ => none

/-- Append one event to the trace. -/
def World.emit (w : World) (e : Event) : World :=
  { w with trace := w.trace ++ [e] }

/-- The modulus of `uint64_t` arithmetic. -/
def UINT64_MOD : Nat := 18446744073709551616

/-- `os_gettime_ns()`: the next reading of the clock, a `uint64_t`. -/
def os_gettime_ns (w : World) : Nat × World :=
  (w.clock w.ticks % UINT64_MOD, { w with ticks := w.ticks + 1 })

/-- Modelled from the spec: the `HTTP_OK` constant of `util/utility.hpp` ("HTTP 200"). -/
def HTTP_OK : Int := 200

/-- Modelled from the spec: `util::download_cover(m_current)`, the external
cover-download collaborator, which receives the current record. Its call is
recorded; the record is not changed. -/
def download_cover (s : song) (w : World) : World :=
  w.emit (Event.download_cover s)

/-- `lastfm_request(response_json, url)`: one GET. Returns the status code
(`-1` when the transfer failed) and the new value of `response_json`. -/
def lastfm_request (response_json : QJsonDocument) (url : String) (w : World) :
    (Int × QJsonDocument) × World :=
  let reply := w.server (requests w).length url
  let w1 := w.emit (Event.request url)
  if reply.res_ok then
    if reply.json.isNull && !reply.body_empty then
      ((reply.http_code, reply.json),
        w1.emit (Event.berr "Failed to parse json response: %s, Error: %s"))
    else
      ((reply.http_code, reply.json), w1)
  else
    (((-1 : Int), response_json), w1.emit (Event.berr "CURL failed while sending spotify command"))

/-! ## Qt text helpers used by the source -/

/-- The unreserved characters of RFC 3986: ASCII letters, digits, and the four marks. -/
def isUnreserved (c : Char) : Bool :=
  c.isAlphanum || c == '-' || c == '.' || c == '_' || c == '~'

/-- The upper-case hexadecimal digit of a number below 16. -/
def hexDigit (n : Nat) : Char :=
  ['0', '1', '2', '3', '4', '5', '6', '7', '8', '9', 'A', 'B', 'C', 'D', 'E', 'F'].getD n '0'

/-- The UTF-8 bytes of a character. -/
def utf8Bytes (c : Char) : List Nat :=
  let n := c.toNat
  if n < 128 then [n]
  else if n < 2048 then [192 + n / 64, 128 + n % 64]
  else if n < 65536 then [224 + n / 4096, 128 + (n / 64) % 64, 128 + n % 64]
  else [240 + n / 262144, 128 + (n / 4096) % 64, 128 + (n / 64) % 64, 128 + n % 64]

/-- The percent-encoding of one character. -/
def percentEncodeChar (c : Char) : List Char :=
  if isUnreserved c then [c]
  else (utf8Bytes c).flatMap fun b => ['%', hexDigit (b / 16), hexDigit (b % 16)]

/-- `QUrl::toPercentEncoding(input)` with its default arguments, a Qt library
function: the input is converted to UTF-8 and every byte that is not an
unreserved character is written as `%XX` with upper-case hexadecimal digits. -/
def toPercentEncoding (input : String) : String :=
  String.mk (input.data.flatMap percentEncodeChar)

/-- White space as `QString::toInt` skips it around the number. -/
def isSpaceChar (c : Char) : Bool :=
  c == ' ' || c == '\t' || c == '\n' || c == '\r' || c.toNat == 11 || c.toNat == 12

/-- The value of a run of decimal digits read left to right, `none` at the first other character. -/
def digitsValue : Nat → List Char → Option Nat
  | acc, [] => some acc
  | acc, c :: cs => if c.isDigit then digitsValue (10 * acc + (c.toNat - 48)) cs else none

/-- An optional sign followed by at least one decimal digit. -/
def signedValue : List Char → Option Int
  | [] => none
  | '-' :: [] => none
  | '+' :: [] => none
  | '-' :: ds => (digitsValue 0 ds).map fun n => -(n : Int)
  | '+' :: ds => (digitsValue 0 ds).map fun n => (n : Int)
  | ds => (digitsValue 0 ds).map fun n => (n : Int)

/-- `QString::toInt(&ok)` in base 10, a Qt library function: surrounding white
space is ignored, then an optional sign and decimal digits must fill the whole
string, and the value must fit a 32-bit `int`. `some i` stands for `ok == true`
with result `i`, `none` for `ok == false`. -/
def QString_toInt (s : String) : Option Int :=
  let body := (((s.data.dropWhile isSpaceChar).reverse).dropWhile isSpaceChar).reverse
  match signedValue body with
  | some v => if -2147483648 ≤ v ∧ v ≤ 2147483647 then some v else none
  | none => none

/-! ## The regular expression of `valid_format`

`QRegularExpression` is constructed from a pattern string. The pattern of
`valid_format` uses only literal characters, bracket classes of literal
members, and top-level alternation; `compilePattern` reads exactly that
fragment, and `hasMatch` is the unanchored search for it. -/

/-- One position of a pattern: a literal character or a bracket class. -/
inductive Atom where
  | lit (c : Char)
  | cls (members : List Char)
deriving DecidableEq, Repr

/-- Read a pattern left to right. `inClass` holds the members read so far when
inside `[...]` (where every character, `|` included, is a member), `cur` the
atoms of the current alternative and `done` the finished alternatives, all
newest first. Outside a class `|` ends the current alternative. -/
def compileAux : List Char → Option (List Char) → List Atom → List (List Atom) → List (List Atom)
  | [], _, cur, done => (cur.reverse :: done).reverse
  | c :: rest, some ms, cur, done =>
    if c == ']' then compileAux rest none (Atom.cls ms.reverse :: cur) done
    else compileAux rest (some (c :: ms)) cur done
  | c :: rest, none, cur, done =>
    if c == '[' then compileAux rest (some []) cur done
    else if c == '|' then compileAux rest none [] (cur.reverse :: done)
    else compileAux rest none (Atom.lit c :: cur) done

/-- The alternatives of a pattern, each a sequence of atoms. -/
def compilePattern (pattern : String) : List (List Atom) :=
  compileAux pattern.data none [] []

/-- Does the atom accept this character. -/
def Atom.accepts : Atom → Char → Bool
  | Atom.lit c, x => x == c
  | Atom.cls ms, x => ms.contains x

/-- Does the sequence of atoms match at the start of the text. -/
def matchesHere : List Atom → List Char → Bool
  | [], _ => true
  | _ :: _, [] => false
  | a :: as, c :: cs => a.accepts c && matchesHere as cs

/-- Does some alternative match at the start of the text. -/
def anyAltHere (alts : List (List Atom)) (text : List Char) : Bool :=
  alts.any fun alt => matchesHere alt text

/-- `QRegularExpression::match(text).hasMatch()`: does some alternative match
at some position of the text. -/
def hasMatch (alts : List (List Atom)) : List Char → Bool
  | [] => anyAltHere alts []
  | c :: cs => anyAltHere alts (c :: cs) || hasMatch alts cs

/-- The `static QRegularExpression reg(...)` of `valid_format`. -/
def reg : List (List Atom) :=
  compilePattern "/%[p|P]|%[r|R]|%[b|B]|%[y|Y]|%[d|D]|%[n|N]/gm"

/-- `lastfm_source::valid_format(str)`. -/
def valid_format (str : String) : Bool :=
  !hasMatch reg str.data

/-- The words an alternative matches: one choice of member per bracket class. -/
def words : List Atom → List (List Char)
  | [] => [[]]
  | Atom.lit c :: rest => (words rest).map fun word => c :: word
  | Atom.cls ms :: rest => ms.flatMap fun m => (words rest).map fun word => m :: word

/-- The strings whose presence makes `valid_format` answer false, as the
pattern has them: the first alternative starts with `/`, the last one ends with
`/gm`, and every bracket class has `|` as a member. -/
def rejected_words : List String :=
  ["/%p", "/%|", "/%P", "%r", "%|", "%R", "%b", "%|", "%B", "%y", "%|", "%Y",
   "%d", "%|", "%D", "%n/gm", "%|/gm", "%N/gm"]

/-! ## The source object -/

/-- The members of `lastfm_source` that `refresh` and `parse_song` use. -/
structure lastfm_source where
  m_username : String
  m_api_key : String
  m_custom_api_key : Bool
  /-- A `uint64_t` nanosecond time stamp. -/
  m_next_refresh : Nat
  m_current : song

/-- Lines 81-93 of `parse_song`, the `@attr` block without the cover download:
`playing` from `@attr.nowplaying`, and the cover link from the last image when playing. -/
def parse_attr (s : QJsonObject) (cur : song) : song :=
  let cur1 := cur.set_playing (((QJsonObject.value s "@attr").get "nowplaying").toString == "true")
  if cur1.playing then
    let covers := QJsonObject.value s "image"
    if covers.isArray && decide (covers.toArray.length > 0) then
      let cover_array := covers.toArray
      let cover := QJsonArray.at cover_array (cover_array.length - 1)
      if cover.isObject then
        cur1.set_cover_link (QJsonObject.value cover.toObject "#text").toString
      else cur1
    else cur1
  else cur1

/-- Lines 97-104 of `parse_song`: artist, album and title, each only when present. -/
def parse_fields (s : QJsonObject) (cur : song) : song :=
  let cur1 :=
    if (QJsonObject.value s "artist").isObject then
      cur.append_artist ((QJsonObject.value s "artist").get "#text").toString
    else cur
  let cur2 :=
    if (QJsonObject.value s "album").isObject then
      cur1.set_album ((QJsonObject.value s "album").get "#text").toString
    else cur1
  if (QJsonObject.value s "name").isString then
    cur2.set_title (QJsonObject.value s "name").toString
  else cur2

/-- The URL of the `track.getInfo` request of `parse_song` (lines 109-111). -/
def track_info_request (api_key : String) (cur : song) : String :=
  "https://ws.audioscrobbler.com/2.0/?method=" ++ "track.getInfo&api_key="
    ++ api_key ++ "&artist=" ++ toPercentEncoding (cur.artists.getD 0 "")
    ++ "&track=" ++ toPercentEncoding cur.title ++ "&format=json"

/-- Lines 115-126 of `parse_song`: merge the answer of the duration lookup. -/
def merge_duration (code : Int) (response : QJsonDocument) (cur : song) : song :=
  if code = HTTP_OK then
    let track := response.get "track"
    if track.isObject then
      let duration := track.get "duration"
      if duration.isString then
        match QString_toInt duration.toString with
        | some i => cur.set_duration i
        | none => cur
      else cur
    else cur
  else cur

/-- `lastfm_source::parse_song(s)`. -/
def parse_song (s : QJsonObject) (self : lastfm_source) (w : World) : lastfm_source × World :=
  let afterAttr : song × World :=
    if (QJsonObject.value s "@attr").isObject then
      let cur := parse_attr s self.m_current
      (cur, download_cover cur w)
    else (self.m_current, w)
  let cur := parse_fields s afterAttr.1
  if !cur.artists.isEmpty && !(decide (cur.title = "")) then
    let r := lastfm_request QJsonDocument.null (track_info_request self.m_api_key cur) afterAttr.2
    ({ self with m_current := merge_duration r.1.1 r.1.2 cur }, r.2)
  else
    ({ self with m_current := cur }, afterAttr.2)

/-- The URL of the `user.getrecenttracks` request of `refresh` (lines 51-52). -/
def recent_tracks_request (self : lastfm_source) : String :=
  "https://ws.audioscrobbler.com/2.0/?method=user.getrecenttracks&user="
    ++ self.m_username ++ "&api_key=" ++ self.m_api_key ++ "&limit=1&format=json"

/-- Lines 56-65 of `refresh`: hand `recenttracks.track[0]` to `parse_song` when it is there. -/
def handle_recent_tracks (response : QJsonDocument) (self : lastfm_source) (w : World) :
    lastfm_source × World :=
  let recent_tracks := response.get "recenttracks"
  if recent_tracks.isObject && (recent_tracks.get "track").isArray then
    let track_arr := (recent_tracks.get "track").toArray
    if track_arr.length > 0 then
      let sng := (QJsonArray.at track_arr 0).toObject
      if !QJsonObject.isEmpty sng then parse_song sng self w else (self, w)
    else (self, w)
  else (self, w)

/-- Lines 50-76 of `refresh`: the poll itself, once the three gates are passed. -/
def poll (self : lastfm_source) (w : World) : lastfm_source × World :=
  let self1 := { self with m_current := self.m_current.clear }
  let r := lastfm_request QJsonDocument.null (recent_tracks_request self1) w
  if r.1.1 = HTTP_OK then
    let p := handle_recent_tracks r.1.2 self1 r.2
    let t := os_gettime_ns p.2
    ({ p.1 with m_next_refresh := (t.1 + 5000000000) % UINT64_MOD }, t.2)
  else
    let w2 := r.2.emit (Event.berr "Received error code from last.fm request: %li")
    let t := os_gettime_ns w2
    ({ self1 with m_next_refresh := (t.1 + 1500000000) % UINT64_MOD }, t.2)

/-- `lastfm_source::refresh()`. In the third gate the clock is read only when
`m_custom_api_key` is false, as `&&` evaluates its right operand only then. -/
def refresh (self : lastfm_source) (w : World) : lastfm_source × World :=
  if self.m_api_key = "" then
    (self, w.emit (Event.berr "No lastfm api key"))
  else if self.m_username = "" then
    (self, w)
  else if self.m_custom_api_key then
    poll self w
  else
    let t := os_gettime_ns w
    if t.1 < self.m_next_refresh then (self, t.2) else poll self t.2

/-- The record `parse_song` has built when it decides on the duration lookup:
the `@attr` block applied when `@attr` is an object, then the three fields. -/
def extracted (s : QJsonObject) (cur : song) : song :=
  parse_fields s (if (QJsonObject.value s "@attr").isObject then parse_attr s cur else cur)

/-- The world when `parse_song` decides on the duration lookup: the cover
download has been triggered when `@attr` is an object. -/
def after_attr (s : QJsonObject) (cur : song) (w : World) : World :=
  if (QJsonObject.value s "@attr").isObject then download_cover (parse_attr s cur) w else w

/-- The configuration as `load` reads it: the strings that
`utf8_to_qt(CGET_STR(CFG_LASTFM_USERNAME))` and
`utf8_to_qt(CGET_STR(CFG_LASTFM_API_KEY))` give. The macros and the store
behind them are declared outside `lastfm_source.cpp`. -/
structure Config where
  CFG_LASTFM_USERNAME : String
  CFG_LASTFM_API_KEY : String

/-- `lastfm_source::load()`. `LASTFM_CREDENTIALS`, the key baked into the
build, is a compile-time constant declared outside this file and is taken as a
parameter. -/
def load (config : Config) (LASTFM_CREDENTIALS : String) (self : lastfm_source) :
    lastfm_source :=
  let self1 := { self with m_username := config.CFG_LASTFM_USERNAME }
  let self2 := { self1 with m_api_key := config.CFG_LASTFM_API_KEY }
  if self2.m_api_key = "" then
    { self2 with m_custom_api_key := false, m_api_key := LASTFM_CREDENTIALS }
  else
    { self2 with m_custom_api_key := true }

/-- A run of `n` successive calls of `refresh()`, each on the source and the
world the previous one left. -/
def refresh_times : Nat → lastfm_source → World → lastfm_source × World
  | 0, self, w => (self, w)
  | n + 1, self, w => refresh_times n (refresh self w).1 (refresh self w).2

/-- The source with its time stamp replaced, as the last statement of a poll leaves it. -/
def with_next_refresh (self : lastfm_source) (n : Nat) : lastfm_source :=
  { self with m_next_refresh := n }

/-! ## Sample inputs -/

/-- A transfer that failed (`res != CURLE_OK`). -/
def failed_transfer : CurlReply :=
  { res_ok := false, http_code := 0, body_empty := true, json := QJsonDocument.null }

/-- A successful transfer with this status and this parsed body. -/
def reply_with (code : Int) (json : QJsonDocument) : CurlReply :=
  { res_ok := true, http_code := code, body_empty := false, json := json }

/-- A fresh world: the clock follows `clock`, the transfers are answered in
order by `replies` and fail once these are used up. -/
def World.start (clock : Nat → Nat) (replies : List CurlReply) : World :=
  { clock := clock, ticks := 0, server := fun k _ => replies.getD k failed_transfer, trace := [] }

/-- A configured source using the shared key, with a cleared current track. -/
def sample_source : lastfm_source :=
  { m_username := "user", m_api_key := "key", m_custom_api_key := false,
    m_next_refresh := 0, m_current := song.cleared }

/-- A clock that starts at 7 s and advances by one nanosecond per reading. -/
def sample_clock (k : Nat) : Nat := 7000000000 + k

/-- The sample source before configuration: no API key. -/
def sample_no_key : lastfm_source := { sample_source with m_api_key := "" }

/-- The sample source without a user name. -/
def sample_no_user : lastfm_source := { sample_source with m_username := "" }

/-- The sample source with the shared key, not eligible before 9 s. -/
def sample_limited : lastfm_source := { sample_source with m_next_refresh := 9000000000 }

/-- The sample source with a custom key, and the same time stamp of 9 s. -/
def sample_custom : lastfm_source :=
  { sample_source with m_custom_api_key := true, m_next_refresh := 9000000000 }

/-- A record left by an earlier poll: every field differs from the cleared value. -/
def sample_stale_song : song :=
  { playing := true, artists := ["Old artist"], album := "Old album", title := "Old title",
    durationSeconds := 99, coverLink := "http://x/old.jpg" }

/-- The sample source with a custom key, a time stamp of 9 s and a stale current track. -/
def sample_custom_stale : lastfm_source :=
  { sample_custom with m_current := sample_stale_song }

/-- A recent-tracks answer that carries the spec's example track. -/
def sample_recent_tracks : QJsonDocument :=
  QJsonDocument.object [("recenttracks", QJsonValue.object
    [("track", QJsonValue.array [QJsonValue.object
      [("@attr", QJsonValue.object [("nowplaying", QJsonValue.string "true")]),
       ("image", QJsonValue.array
          [QJsonValue.object [("#text", QJsonValue.string "http://x/y.jpg")]]),
       ("artist", QJsonValue.object [("#text", QJsonValue.string "A")]),
       ("name", QJsonValue.string "T")]])])]

/-- The track object of the spec's example: now playing, one image, artist `A`, name `T`. -/
def sample_track : QJsonObject :=
  [("@attr", QJsonValue.object [("nowplaying", QJsonValue.string "true")]),
   ("image", QJsonValue.array [QJsonValue.object [("#text", QJsonValue.string "http://x/y.jpg")]]),
   ("artist", QJsonValue.object [("#text", QJsonValue.string "A")]),
   ("name", QJsonValue.string "T")]

/-- The `track.getInfo` answer of the spec's example, with duration `"215"`. -/
def sample_track_info : QJsonDocument :=
  QJsonDocument.object
    [("track", QJsonValue.object [("duration", QJsonValue.string "215")])]

/-- A recent-tracks answer whose `track` array is empty. -/
def sample_no_tracks : QJsonDocument :=
  QJsonDocument.object [("recenttracks", QJsonValue.object [("track", QJsonValue.array [])])]

/-- A clock that starts at 7 s, advances by one nanosecond per reading and
stops advancing after ten readings. -/
def sample_slow_clock (k : Nat) : Nat := 7000000000 + min k 10

/-- A clock that stands at the largest `uint64_t` value, 2^64 - 1 ns. -/
def sample_wrap_clock (_k : Nat) : Nat := 18446744073709551615

/-- A track whose artist object has no `#text`, with a name. -/
def sample_track_blank_artist : QJsonObject :=
  [("artist", QJsonValue.object []), ("name", QJsonValue.string "T")]

/-- A track that is not playing, with one image. -/
def sample_track_not_playing : QJsonObject :=
  [("@attr", QJsonValue.object [("nowplaying", QJsonValue.string "false")]),
   ("image", QJsonValue.array [QJsonValue.object [("#text", QJsonValue.string "http://x/y.jpg")]])]

/-- A track that is playing and has no `image` member. -/
def sample_track_no_image : QJsonObject :=
  [("@attr", QJsonValue.object [("nowplaying", QJsonValue.string "true")])]

/-- A playing track with two images, the small one first. -/
def sample_track_two_images : QJsonObject :=
  [("@attr", QJsonValue.object [("nowplaying", QJsonValue.string "true")]),
   ("image", QJsonValue.array
      [QJsonValue.object [("#text", QJsonValue.string "http://x/small.jpg")],
       QJsonValue.object [("#text", QJsonValue.string "http://x/large.jpg")]])]

/-- The cover part of `sample_track` alone: no artist, no album, no name. -/
def sample_track_cover_only : QJsonObject :=
  [("@attr", QJsonValue.object [("nowplaying", QJsonValue.string "true")]),
   ("image", QJsonValue.array [QJsonValue.object [("#text", QJsonValue.string "http://x/y.jpg")]])]

/-- A track whose `@attr` has this value for `nowplaying` and nothing else. -/
def sample_track_nowplaying (v : QJsonValue) : QJsonObject :=
  [("@attr", QJsonValue.object [("nowplaying", v)])]

/-- A configuration with a user name and no API key. -/
def sample_config_shared : Config :=
  { CFG_LASTFM_USERNAME := "user", CFG_LASTFM_API_KEY := "" }

/-- A configuration with a user name and an API key of the user. -/
def sample_config_custom : Config :=
  { CFG_LASTFM_USERNAME := "user", CFG_LASTFM_API_KEY := "mine" }

/-! ## Bookkeeping lemmas about the world -/

section world_lemmas

@[simp] theorem requests_emit_request (w : World) (url : String) :
    requests (w.emit (Event.request url)) = requests w ++ [url] := by
  simp [requests, World.emit, List.filterMap_append]

@[simp] theorem requests_emit_berr (w : World) (fmt : String) :
    requests (w.emit (Event.berr fmt)) = requests w := by
  simp [requests, World.emit, List.filterMap_append]

@[simp] theorem requests_download_cover (w : World) (s : song) :
    requests (download_cover s w) = requests w := by
  simp [requests, download_cover, World.emit, List.filterMap_append]

@[simp] theorem requests_os_gettime_ns (w : World) :
    requests (os_gettime_ns w).2 = requests w := rfl

@[simp] theorem os_gettime_ns_fst (w : World) :
    (os_gettime_ns w).1 = w.clock w.ticks % UINT64_MOD := rfl

@[simp] theorem os_gettime_ns_trace (w : World) : (os_gettime_ns w).2.trace = w.trace := rfl

@[simp] theorem emit_ticks (w : World) (e : Event) : (w.emit e).ticks = w.ticks := rfl

@[simp] theorem emit_clock (w : World) (e : Event) : (w.emit e).clock = w.clock := rfl

@[simp] theorem emit_server (w : World) (e : Event) : (w.emit e).server = w.server := rfl

@[simp] theorem emit_trace (w : World) (e : Event) : (w.emit e).trace = w.trace ++ [e] := rfl

@[simp] theorem download_cover_trace (w : World) (s : song) :
    (download_cover s w).trace = w.trace ++ [Event.download_cover s] := rfl

@[simp] theorem download_cover_ticks (w : World) (s : song) :
    (download_cover s w).ticks = w.ticks := rfl

@[simp] theorem download_cover_clock (w : World) (s : song) :
    (download_cover s w).clock = w.clock := rfl

@[simp] theorem download_cover_server (w : World) (s : song) :
    (download_cover s w).server = w.server := rfl

theorem lastfm_request_requests (d : QJsonDocument) (url : String) (w : World) :
    requests (lastfm_request d url w).2 = requests w ++ [url] := by
  unfold lastfm_request
  dsimp only
  split_ifs <;> simp

theorem lastfm_request_ticks (d : QJsonDocument) (url : String) (w : World) :
    (lastfm_request d url w).2.ticks = w.ticks := by
  unfold lastfm_request
  dsimp only
  split_ifs <;> simp

theorem lastfm_request_clock (d : QJsonDocument) (url : String) (w : World) :
    (lastfm_request d url w).2.clock = w.clock := by
  unfold lastfm_request
  dsimp only
  split_ifs <;> simp

theorem lastfm_request_trace (d : QJsonDocument) (url : String) (w : World) :
    ∃ evs, (lastfm_request d url w).2.trace = w.trace ++ Event.request url :: evs := by
  unfold lastfm_request
  dsimp only
  split_ifs
  · exact ⟨[Event.berr "Failed to parse json response: %s, Error: %s"], by simp⟩
  · exact ⟨[], by simp⟩
  · exact ⟨[Event.berr "CURL failed while sending spotify command"], by simp⟩

/-- The status code `lastfm_request` returns: the reply's code after a
successful transfer, `-1` otherwise. -/
theorem lastfm_request_code (d : QJsonDocument) (url : String) (w : World) :
    (lastfm_request d url w).1.1 =
      if (w.server (requests w).length url).res_ok then
        (w.server (requests w).length url).http_code
      else -1 := by
  unfold lastfm_request
  dsimp only
  split_ifs <;> rfl

/-- The document `lastfm_request` leaves in `response_json`. -/
theorem lastfm_request_json (d : QJsonDocument) (url : String) (w : World) :
    (lastfm_request d url w).1.2 =
      if (w.server (requests w).length url).res_ok then
        (w.server (requests w).length url).json
      else d := by
  unfold lastfm_request
  dsimp only
  split_ifs <;> rfl

end world_lemmas

/-! ## The gates of `refresh` -/

/-- C1. With an empty API key `refresh()` issues no HTTP request and leaves
every member of the source, `m_current` and `m_next_refresh` in particular,
exactly as it was; the clock is not read, no cover is downloaded, and the one
thing it does is log the missing key. -/
theorem refresh_empty_api_key (self : lastfm_source) (w : World)
    (hkey : self.m_api_key = "") :
    (refresh self w).1.m_current = self.m_current ∧
    (refresh self w).1.m_next_refresh = self.m_next_refresh ∧
    (refresh self w).1 = self ∧
    requests (refresh self w).2 = requests w ∧
    cover_downloads (refresh self w).2 = cover_downloads w ∧
    (refresh self w).2.ticks = w.ticks ∧
    (refresh self w).2.trace = w.trace ++ [Event.berr "No lastfm api key"] := by
  simp [refresh, hkey, cover_downloads, List.filterMap_append]

/-- C1 at the sample source without a key: nothing is requested, nothing changes. -/
theorem refresh_empty_api_key_witness :
    sample_no_key.m_api_key = "" ∧
    (refresh sample_no_key (World.start sample_clock [])).1.m_current = sample_no_key.m_current ∧
    (refresh sample_no_key (World.start sample_clock [])).1.m_next_refresh
      = sample_no_key.m_next_refresh ∧
    (refresh sample_no_key (World.start sample_clock [])).1 = sample_no_key ∧
    requests (refresh sample_no_key (World.start sample_clock [])).2
      = requests (World.start sample_clock []) ∧
    cover_downloads (refresh sample_no_key (World.start sample_clock [])).2
      = cover_downloads (World.start sample_clock []) ∧
    (refresh sample_no_key (World.start sample_clock [])).2.ticks
      = (World.start sample_clock []).ticks ∧
    (refresh sample_no_key (World.start sample_clock [])).2.trace
      = [Event.berr "No lastfm api key"] :=
  ⟨rfl, refresh_empty_api_key sample_no_key (World.start sample_clock []) rfl⟩

/-- C2. With an empty user name and a non-empty API key `refresh()` is a
no-op: the source and the world (requests, log, clock) come back unchanged,
whatever `m_custom_api_key`, `m_next_refresh` and the clock are. -/
theorem refresh_empty_username (self : lastfm_source) (w : World)
    (hkey : self.m_api_key ≠ "") (huser : self.m_username = "") :
    refresh self w = (self, w) := by
  simp [refresh, hkey, huser]

/-- C2 at the sample source without a user name. -/
theorem refresh_empty_username_witness :
    sample_no_user.m_api_key ≠ "" ∧ sample_no_user.m_username = "" ∧
    refresh sample_no_user (World.start sample_clock [])
      = (sample_no_user, World.start sample_clock []) :=
  ⟨by decide, rfl,
    refresh_empty_username sample_no_user (World.start sample_clock []) (by decide) rfl⟩

/-- C3. With the shared key (`m_custom_api_key == false`) and a clock reading
below `m_next_refresh`, `refresh()` issues no HTTP request, downloads no cover
and leaves the source (`m_current`, `m_next_refresh`) unchanged, whatever the
API key and the user name are. -/
theorem refresh_rate_limited (self : lastfm_source) (w : World)
    (hshared : self.m_custom_api_key = false)
    (hearly : w.clock w.ticks % UINT64_MOD < self.m_next_refresh) :
    requests (refresh self w).2 = requests w ∧
    (refresh self w).1.m_current = self.m_current ∧
    (refresh self w).1.m_next_refresh = self.m_next_refresh ∧
    (refresh self w).1 = self ∧
    cover_downloads (refresh self w).2 = cover_downloads w := by
  by_cases h1 : self.m_api_key = ""
  · simp [refresh, h1, cover_downloads, List.filterMap_append]
  · by_cases h2 : self.m_username = ""
    · simp [refresh, h1, h2, cover_downloads]
    · simp [refresh, h1, h2, hshared, hearly, cover_downloads]

/-- C3 at the sample source with the shared key: the clock reads 7 s, the next
poll is due at 9 s. -/
theorem refresh_rate_limited_witness :
    sample_limited.m_custom_api_key = false ∧
    (World.start sample_clock []).clock (World.start sample_clock []).ticks % UINT64_MOD
      < sample_limited.m_next_refresh ∧
    requests (refresh sample_limited (World.start sample_clock [])).2
      = requests (World.start sample_clock []) ∧
    (refresh sample_limited (World.start sample_clock [])).1.m_current
      = sample_limited.m_current ∧
    (refresh sample_limited (World.start sample_clock [])).1.m_next_refresh
      = sample_limited.m_next_refresh ∧
    (refresh sample_limited (World.start sample_clock [])).1 = sample_limited ∧
    cover_downloads (refresh sample_limited (World.start sample_clock [])).2
      = cover_downloads (World.start sample_clock []) :=
  ⟨rfl, by decide,
    refresh_rate_limited sample_limited (World.start sample_clock []) rfl (by decide)⟩

/-! ## What `parse_song` and `poll` do to the world -/

section poll_lemmas

theorem parse_song_ticks (s : QJsonObject) (self : lastfm_source) (w : World) :
    (parse_song s self w).2.ticks = w.ticks := by
  unfold parse_song
  dsimp only
  split_ifs <;> simp [lastfm_request_ticks]

theorem parse_song_clock (s : QJsonObject) (self : lastfm_source) (w : World) :
    (parse_song s self w).2.clock = w.clock := by
  unfold parse_song
  dsimp only
  split_ifs <;> simp [lastfm_request_clock]

theorem parse_song_trace (s : QJsonObject) (self : lastfm_source) (w : World) :
    ∃ evs, (parse_song s self w).2.trace = w.trace ++ evs := by
  unfold parse_song
  dsimp only
  split_ifs
  · obtain ⟨evs, h⟩ := lastfm_request_trace QJsonDocument.null
      (track_info_request self.m_api_key (parse_fields s (parse_attr s self.m_current)))
      (download_cover (parse_attr s self.m_current) w)
    exact ⟨Event.download_cover (parse_attr s self.m_current) ::
      Event.request (track_info_request self.m_api_key
        (parse_fields s (parse_attr s self.m_current))) :: evs, by rw [h]; simp⟩
  · exact ⟨[Event.download_cover (parse_attr s self.m_current)], by simp⟩
  · obtain ⟨evs, h⟩ := lastfm_request_trace QJsonDocument.null
      (track_info_request self.m_api_key (parse_fields s self.m_current)) w
    exact ⟨Event.request _ :: evs, h⟩
  · exact ⟨[], by simp⟩

/-- The old current track reaches `parse_song` only through `m_current`, and
`m_next_refresh` passes through it untouched. -/
theorem parse_song_members (s : QJsonObject) (self : lastfm_source) (w : World) :
    (parse_song s self w).1.m_username = self.m_username ∧
    (parse_song s self w).1.m_api_key = self.m_api_key ∧
    (parse_song s self w).1.m_custom_api_key = self.m_custom_api_key ∧
    (parse_song s self w).1.m_next_refresh = self.m_next_refresh := by
  unfold parse_song
  dsimp only
  split_ifs <;> simp

theorem handle_recent_tracks_ticks (d : QJsonDocument) (self : lastfm_source) (w : World) :
    (handle_recent_tracks d self w).2.ticks = w.ticks := by
  unfold handle_recent_tracks
  dsimp only
  split_ifs <;> simp [parse_song_ticks]

theorem handle_recent_tracks_clock (d : QJsonDocument) (self : lastfm_source) (w : World) :
    (handle_recent_tracks d self w).2.clock = w.clock := by
  unfold handle_recent_tracks
  dsimp only
  split_ifs <;> simp [parse_song_clock]

theorem handle_recent_tracks_trace (d : QJsonDocument) (self : lastfm_source) (w : World) :
    ∃ evs, (handle_recent_tracks d self w).2.trace = w.trace ++ evs := by
  unfold handle_recent_tracks
  dsimp only
  split_ifs
  · exact parse_song_trace _ _ _
  · exact ⟨[], by simp⟩
  · exact ⟨[], by simp⟩
  · exact ⟨[], by simp⟩

/-- A document without a first track leaves the source and the world alone. -/
theorem handle_recent_tracks_none (d : QJsonDocument) (self : lastfm_source) (w : World)
    (hnone : d.isNull = true ∨ (d.get "recenttracks").isObject = false ∨
      ((d.get "recenttracks").get "track").isArray = false ∨
      ((d.get "recenttracks").get "track").toArray = []) :
    handle_recent_tracks d self w = (self, w) := by
  unfold handle_recent_tracks
  dsimp only
  rcases hnone with h | h | h | h
  · cases d <;> simp [QJsonDocument.isNull] at h
    simp [QJsonDocument.get, QJsonValue.isObject]
  · simp [h]
  · simp [h]
  · simp [h]

/-- The poll begins with the recent-tracks request. -/
theorem poll_trace (self : lastfm_source) (w : World) :
    ∃ evs, (poll self w).2.trace =
      w.trace ++ Event.request (recent_tracks_request self) :: evs := by
  obtain ⟨evs0, h0⟩ := lastfm_request_trace QJsonDocument.null (recent_tracks_request self) w
  unfold poll
  dsimp only
  split_ifs
  · obtain ⟨evs1, h1⟩ := handle_recent_tracks_trace
      (lastfm_request QJsonDocument.null (recent_tracks_request self) w).1.2
      { self with m_current := self.m_current.clear }
      (lastfm_request QJsonDocument.null (recent_tracks_request self) w).2
    refine ⟨evs0 ++ evs1, ?_⟩
    simp only [os_gettime_ns_trace]
    rw [show recent_tracks_request { self with m_current := self.m_current.clear }
      = recent_tracks_request self from rfl] at *
    rw [h1, h0]
    simp
  · refine ⟨evs0 ++ [Event.berr "Received error code from last.fm request: %li"], ?_⟩
    simp only [os_gettime_ns_trace, emit_trace]
    rw [show recent_tracks_request { self with m_current := self.m_current.clear }
      = recent_tracks_request self from rfl] at *
    rw [h0]
    simp

/-- The poll reads the clock once, after the request and the parsing. -/
theorem poll_ticks (self : lastfm_source) (w : World) :
    (poll self w).2.ticks = w.ticks + 1 := by
  unfold poll
  dsimp only
  split_ifs <;> simp [os_gettime_ns, handle_recent_tracks_ticks, lastfm_request_ticks]

/-- The poll starts from a cleared record: the old one has no influence. -/
theorem poll_forgets_current (self : lastfm_source) (c : song) (w : World) :
    poll { self with m_current := c } w = poll self w := rfl

end poll_lemmas

/-! ## The two outcomes of a poll that parses nothing -/

section poll_outcomes

/-- A poll whose primary call gives 200 and a document without a first track. -/
theorem poll_ok_without_track (self : lastfm_source) (w : World)
    (hok : (w.server (requests w).length (recent_tracks_request self)).res_ok = true)
    (hcode : (w.server (requests w).length (recent_tracks_request self)).http_code = 200)
    (hnone :
      (w.server (requests w).length (recent_tracks_request self)).json.isNull = true ∨
      ((w.server (requests w).length (recent_tracks_request self)).json.get
        "recenttracks").isObject = false ∨
      (((w.server (requests w).length (recent_tracks_request self)).json.get
        "recenttracks").get "track").isArray = false ∨
      (((w.server (requests w).length (recent_tracks_request self)).json.get
        "recenttracks").get "track").toArray = []) :
    (poll self w).1.m_current = song.cleared ∧
    requests (poll self w).2 = requests w ++ [recent_tracks_request self] ∧
    (poll self w).1.m_next_refresh =
      (w.clock w.ticks % UINT64_MOD + 5000000000) % UINT64_MOD := by
  have hurl : recent_tracks_request { self with m_current := self.m_current.clear }
      = recent_tracks_request self := rfl
  have hc := lastfm_request_code QJsonDocument.null (recent_tracks_request self) w
  have hj := lastfm_request_json QJsonDocument.null (recent_tracks_request self) w
  rw [if_pos hok] at hc hj
  rw [← hj] at hnone
  have hh := handle_recent_tracks_none _ { self with m_current := self.m_current.clear }
    (lastfm_request QJsonDocument.null (recent_tracks_request self) w).2 hnone
  unfold poll
  dsimp only
  rw [hurl, if_pos (by rw [hc, hcode]; rfl), hh]
  simp [song.clear, lastfm_request_requests, lastfm_request_ticks, lastfm_request_clock]

/-- A poll whose primary call gives anything but 200. -/
theorem poll_not_ok (self : lastfm_source) (w : World)
    (hbad : (w.server (requests w).length (recent_tracks_request self)).res_ok = false ∨
      (w.server (requests w).length (recent_tracks_request self)).http_code ≠ 200) :
    (poll self w).1.m_current = song.cleared ∧
    requests (poll self w).2 = requests w ++ [recent_tracks_request self] ∧
    (poll self w).1.m_next_refresh =
      (w.clock w.ticks % UINT64_MOD + 1500000000) % UINT64_MOD := by
  have hurl : recent_tracks_request { self with m_current := self.m_current.clear }
      = recent_tracks_request self := rfl
  have hc := lastfm_request_code QJsonDocument.null (recent_tracks_request self) w
  have hne : (lastfm_request QJsonDocument.null (recent_tracks_request self) w).1.1 ≠ HTTP_OK := by
    rw [hc]
    rcases hbad with h | h
    · simp [h, HTTP_OK]
    · split_ifs
      · exact h
      · decide
  unfold poll
  dsimp only
  rw [hurl, if_neg hne]
  simp [song.clear, lastfm_request_requests, lastfm_request_ticks, lastfm_request_clock]

/-- Past the three gates `refresh` is the poll, run after the gate's clock
reading when the key is the shared one. -/
theorem refresh_past_gates (self : lastfm_source) (w : World)
    (hkey : self.m_api_key ≠ "") (huser : self.m_username ≠ "")
    (hgate : self.m_custom_api_key = true ∨
      ¬ (w.clock w.ticks % UINT64_MOD < self.m_next_refresh)) :
    refresh self w =
      poll self { w with ticks := w.ticks + (if self.m_custom_api_key = true then 0 else 1) } := by
  simp only [refresh]
  rw [if_neg hkey, if_neg huser]
  by_cases hc : self.m_custom_api_key = true
  · rw [if_pos hc, if_pos hc]
    rfl
  · rw [if_neg hc, if_neg hc]
    have hlate : ¬ (w.clock w.ticks % UINT64_MOD < self.m_next_refresh) := by
      rcases hgate with h | h
      · exact absurd h hc
      · exact h
    simp only [os_gettime_ns_fst]
    rw [if_neg hlate]
    rfl

end poll_outcomes

/-- C5. A poll that passes the three gates and whose primary call returns
HTTP 200 with a document that has no first track (a null document,
`recenttracks` missing or not an object, `track` missing or not an array, or an
empty `track` array) ends with the current track equal to its cleared value,
has issued the recent-tracks request and no other, and sets `m_next_refresh` to
`now + 5 000 000 000` in `uint64_t` arithmetic, `now` being the clock reading
taken when the interval is set (the first reading of the call with a custom
key, the second with the shared key); the sum is exact whenever it is below
2^64. -/
theorem refresh_ok_without_track (self : lastfm_source) (w : World)
    (hkey : self.m_api_key ≠ "") (huser : self.m_username ≠ "")
    (hgate : self.m_custom_api_key = true ∨
      ¬ (w.clock w.ticks % UINT64_MOD < self.m_next_refresh))
    (hok : (w.server (requests w).length (recent_tracks_request self)).res_ok = true)
    (hcode : (w.server (requests w).length (recent_tracks_request self)).http_code = 200)
    (hnone :
      (w.server (requests w).length (recent_tracks_request self)).json.isNull = true ∨
      ((w.server (requests w).length (recent_tracks_request self)).json.get
        "recenttracks").isObject = false ∨
      (((w.server (requests w).length (recent_tracks_request self)).json.get
        "recenttracks").get "track").isArray = false ∨
      (((w.server (requests w).length (recent_tracks_request self)).json.get
        "recenttracks").get "track").toArray = []) :
    (refresh self w).1.m_current = song.cleared ∧
    requests (refresh self w).2 = requests w ++ [recent_tracks_request self] ∧
    (refresh self w).1.m_next_refresh =
      (w.clock (w.ticks + (if self.m_custom_api_key = true then 0 else 1)) % UINT64_MOD
        + 5000000000) % UINT64_MOD ∧
    (w.clock (w.ticks + (if self.m_custom_api_key = true then 0 else 1)) % UINT64_MOD
        + 5000000000 < UINT64_MOD →
      (refresh self w).1.m_next_refresh =
        w.clock (w.ticks + (if self.m_custom_api_key = true then 0 else 1)) % UINT64_MOD
          + 5000000000) := by
  rw [refresh_past_gates self w hkey huser hgate]
  obtain ⟨h1, h2, h3⟩ := poll_ok_without_track self
    { w with ticks := w.ticks + (if self.m_custom_api_key = true then 0 else 1) } hok hcode hnone
  refine ⟨h1, h2, h3, fun hlt => ?_⟩
  rw [h3]
  exact Nat.mod_eq_of_lt hlt

/-- C5 at the sample source: the answer is 200 with an empty `track` array, the
interval is set at the second clock reading, 7 000 000 001 ns. -/
theorem refresh_ok_without_track_witness :
    sample_source.m_api_key ≠ "" ∧ sample_source.m_username ≠ "" ∧
    ¬ ((World.start sample_clock [reply_with 200 sample_no_tracks]).clock 0 % UINT64_MOD
      < sample_source.m_next_refresh) ∧
    (refresh sample_source
      (World.start sample_clock [reply_with 200 sample_no_tracks])).1.m_current = song.cleared ∧
    requests (refresh sample_source
      (World.start sample_clock [reply_with 200 sample_no_tracks])).2 =
      ["https://ws.audioscrobbler.com/2.0/?method=user.getrecenttracks&user=user&api_key=key&limit=1&format=json"] ∧
    (refresh sample_source
      (World.start sample_clock [reply_with 200 sample_no_tracks])).1.m_next_refresh
      = 12000000001 :=
  ⟨by decide, by decide, by decide,
    (refresh_ok_without_track sample_source
      (World.start sample_clock [reply_with 200 sample_no_tracks])
      (by decide) (by decide) (Or.inr (by decide)) rfl rfl (Or.inr (Or.inr (Or.inr rfl)))).1,
    (refresh_ok_without_track sample_source
      (World.start sample_clock [reply_with 200 sample_no_tracks])
      (by decide) (by decide) (Or.inr (by decide)) rfl rfl (Or.inr (Or.inr (Or.inr rfl)))).2.1,
    (refresh_ok_without_track sample_source
      (World.start sample_clock [reply_with 200 sample_no_tracks])
      (by decide) (by decide) (Or.inr (by decide)) rfl rfl (Or.inr (Or.inr (Or.inr rfl)))).2.2.1⟩

/-- C6. A poll that passes the three gates and whose primary call returns any
status other than 200, the `-1` of a failed transfer included, sets
`m_next_refresh` to `now + 1 500 000 000` in `uint64_t` arithmetic (`now` being
the clock reading taken when the interval is set; the sum is exact whenever it
is below 2^64), ends with the current track equal to its cleared value, and has
issued the recent-tracks request and no other: no `track.getInfo` call. -/
theorem refresh_not_ok (self : lastfm_source) (w : World)
    (hkey : self.m_api_key ≠ "") (huser : self.m_username ≠ "")
    (hgate : self.m_custom_api_key = true ∨
      ¬ (w.clock w.ticks % UINT64_MOD < self.m_next_refresh))
    (hbad : (w.server (requests w).length (recent_tracks_request self)).res_ok = false ∨
      (w.server (requests w).length (recent_tracks_request self)).http_code ≠ 200) :
    (refresh self w).1.m_next_refresh =
      (w.clock (w.ticks + (if self.m_custom_api_key = true then 0 else 1)) % UINT64_MOD
        + 1500000000) % UINT64_MOD ∧
    (w.clock (w.ticks + (if self.m_custom_api_key = true then 0 else 1)) % UINT64_MOD
        + 1500000000 < UINT64_MOD →
      (refresh self w).1.m_next_refresh =
        w.clock (w.ticks + (if self.m_custom_api_key = true then 0 else 1)) % UINT64_MOD
          + 1500000000) ∧
    (refresh self w).1.m_current = song.cleared ∧
    requests (refresh self w).2 = requests w ++ [recent_tracks_request self] := by
  rw [refresh_past_gates self w hkey huser hgate]
  obtain ⟨h1, h2, h3⟩ := poll_not_ok self
    { w with ticks := w.ticks + (if self.m_custom_api_key = true then 0 else 1) } hbad
  refine ⟨h3, fun hlt => ?_, h1, h2⟩
  rw [h3]
  exact Nat.mod_eq_of_lt hlt

/-- C6 at the sample source, once with a failed transfer (status `-1`) and once
with HTTP 404: the interval is set at 7 000 000 001 ns plus 1.5 s. -/
theorem refresh_not_ok_witness :
    sample_source.m_api_key ≠ "" ∧ sample_source.m_username ≠ "" ∧
    ((refresh sample_source (World.start sample_clock [])).1.m_next_refresh = 8500000001 ∧
      (refresh sample_source (World.start sample_clock [])).1.m_current = song.cleared ∧
      requests (refresh sample_source (World.start sample_clock [])).2 =
        ["https://ws.audioscrobbler.com/2.0/?method=user.getrecenttracks&user=user&api_key=key&limit=1&format=json"]) ∧
    ((refresh sample_source
        (World.start sample_clock [reply_with 404 QJsonDocument.null])).1.m_next_refresh
        = 8500000001 ∧
      (refresh sample_source
        (World.start sample_clock [reply_with 404 QJsonDocument.null])).1.m_current
        = song.cleared) :=
  ⟨by decide, by decide,
    ⟨(refresh_not_ok sample_source (World.start sample_clock [])
        (by decide) (by decide) (Or.inr (by decide)) (Or.inl rfl)).1,
      (refresh_not_ok sample_source (World.start sample_clock [])
        (by decide) (by decide) (Or.inr (by decide)) (Or.inl rfl)).2.2.1,
      (refresh_not_ok sample_source (World.start sample_clock [])
        (by decide) (by decide) (Or.inr (by decide)) (Or.inl rfl)).2.2.2⟩,
    ⟨(refresh_not_ok sample_source (World.start sample_clock [reply_with 404 QJsonDocument.null])
        (by decide) (by decide) (Or.inr (by decide)) (Or.inr (by decide))).1,
      (refresh_not_ok sample_source (World.start sample_clock [reply_with 404 QJsonDocument.null])
        (by decide) (by decide) (Or.inr (by decide)) (Or.inr (by decide))).2.2.1⟩⟩

/-! ## The track extractor -/

section extractor_lemmas

theorem parse_attr_durationSeconds (s : QJsonObject) (cur : song) :
    (parse_attr s cur).durationSeconds = cur.durationSeconds := by
  unfold parse_attr
  dsimp only
  split_ifs <;> rfl

theorem parse_fields_durationSeconds (s : QJsonObject) (cur : song) :
    (parse_fields s cur).durationSeconds = cur.durationSeconds := by
  unfold parse_fields
  dsimp only
  split_ifs <;> rfl

theorem extracted_durationSeconds (s : QJsonObject) (cur : song) :
    (extracted s cur).durationSeconds = cur.durationSeconds := by
  unfold extracted
  rw [parse_fields_durationSeconds]
  split_ifs
  · exact parse_attr_durationSeconds s cur
  · rfl

/-- Merging the duration touches no other field. -/
theorem merge_duration_other_fields (code : Int) (d : QJsonDocument) (cur : song) :
    (merge_duration code d cur).playing = cur.playing ∧
    (merge_duration code d cur).artists = cur.artists ∧
    (merge_duration code d cur).album = cur.album ∧
    (merge_duration code d cur).title = cur.title ∧
    (merge_duration code d cur).coverLink = cur.coverLink := by
  unfold merge_duration
  dsimp only
  split_ifs
  · cases QString_toInt ((d.get "track").get "duration").toString <;> simp [song.set_duration]
  all_goals simp

/-- The shape of `parse_song`: extraction, then the lookup when artist and title are there. -/
theorem parse_song_eq (s : QJsonObject) (self : lastfm_source) (w : World) :
    parse_song s self w =
      if (!(extracted s self.m_current).artists.isEmpty
          && !(decide ((extracted s self.m_current).title = ""))) = true then
        ({ self with m_current := (merge_duration
            (lastfm_request QJsonDocument.null
              (track_info_request self.m_api_key (extracted s self.m_current))
              (after_attr s self.m_current w)).1.1
            (lastfm_request QJsonDocument.null
              (track_info_request self.m_api_key (extracted s self.m_current))
              (after_attr s self.m_current w)).1.2
            (extracted s self.m_current)) },
         (lastfm_request QJsonDocument.null
            (track_info_request self.m_api_key (extracted s self.m_current))
            (after_attr s self.m_current w)).2)
      else
        ({ self with m_current := extracted s self.m_current }, after_attr s self.m_current w) := by
  unfold parse_song extracted after_attr
  by_cases h : (QJsonObject.value s "@attr").isObject = true
  · simp only [h, if_true]
  · simp only [h, if_false]
    rfl

theorem requests_after_attr (s : QJsonObject) (cur : song) (w : World) :
    requests (after_attr s cur w) = requests w := by
  unfold after_attr
  split_ifs <;> simp

theorem server_after_attr (s : QJsonObject) (cur : song) (w : World) :
    (after_attr s cur w).server = w.server := by
  unfold after_attr
  split_ifs <;> simp

/-- The last element of an array, as `cover_array[cover_array.size() - 1]` reads it. -/
theorem QJsonArray_at_last (front : List QJsonValue) (x : QJsonValue) :
    QJsonArray.at (front ++ [x]) ((front ++ [x]).length - 1) = x := by
  simp [QJsonArray.at]

end extractor_lemmas

section now_playing

/-- The fields extracted from a now-playing track with a cover, an artist and a name. -/
theorem extracted_now_playing (s attr img art : QJsonObject) (front : List QJsonValue)
    (u a t : String)
    (hattr : QJsonObject.value s "@attr" = QJsonValue.object attr)
    (hnow : QJsonObject.value attr "nowplaying" = QJsonValue.string "true")
    (himage : QJsonObject.value s "image" = QJsonValue.array (front ++ [QJsonValue.object img]))
    (hlink : QJsonObject.value img "#text" = QJsonValue.string u)
    (hartist : QJsonObject.value s "artist" = QJsonValue.object art)
    (hart : QJsonObject.value art "#text" = QJsonValue.string a)
    (hname : QJsonObject.value s "name" = QJsonValue.string t) :
    (extracted s song.cleared).playing = true ∧
    (extracted s song.cleared).coverLink = u ∧
    (extracted s song.cleared).artists = [a] ∧
    (extracted s song.cleared).title = t := by
  have hlast := QJsonArray_at_last front (QJsonValue.object img)
  have hpa : parse_attr s song.cleared = { song.cleared with playing := true, coverLink := u } := by
    unfold parse_attr
    simp only [hattr, QJsonValue.get, QJsonValue.toObject, hnow, QJsonValue.toString, himage,
      QJsonValue.isArray, QJsonValue.toArray, hlast, QJsonValue.isObject, hlink,
      song.set_playing, song.set_cover_link]
    simp
  unfold extracted parse_fields
  simp only [hattr, QJsonValue.isObject, if_true, hpa, hartist, QJsonValue.get,
    QJsonValue.toObject, hart, QJsonValue.toString, hname, QJsonValue.isString,
    song.append_artist, song.set_title, song.set_album]
  split_ifs <;> simp [song.cleared]

end now_playing

/-- C7. For a track object with `@attr.nowplaying == "true"`, a non-empty
`image` array whose last element is an object with `#text = u`,
`artist.#text = a` and `name = t` with `t` non-empty (nothing is asked of `a`),
`parse_song` applied to a cleared current track yields `playing = true`,
`coverLink = u`, `artists = [a]`, `title = t`, and issues exactly one request,
the `track.getInfo` one, whose URL carries the source's API key, the
percent-encoding of `a` as `artist` and the percent-encoding of `t` as `track`. -/
theorem parse_song_now_playing (s attr img art : QJsonObject) (front : List QJsonValue)
    (u a t : String) (self : lastfm_source) (w : World)
    (hcur : self.m_current = song.cleared)
    (hattr : QJsonObject.value s "@attr" = QJsonValue.object attr)
    (hnow : QJsonObject.value attr "nowplaying" = QJsonValue.string "true")
    (himage : QJsonObject.value s "image" = QJsonValue.array (front ++ [QJsonValue.object img]))
    (hlink : QJsonObject.value img "#text" = QJsonValue.string u)
    (hartist : QJsonObject.value s "artist" = QJsonValue.object art)
    (hart : QJsonObject.value art "#text" = QJsonValue.string a)
    (hname : QJsonObject.value s "name" = QJsonValue.string t)
    (ht : t ≠ "") :
    (parse_song s self w).1.m_current.playing = true ∧
    (parse_song s self w).1.m_current.coverLink = u ∧
    (parse_song s self w).1.m_current.artists = [a] ∧
    (parse_song s self w).1.m_current.title = t ∧
    requests (parse_song s self w).2 = requests w ++
      ["https://ws.audioscrobbler.com/2.0/?method=track.getInfo&api_key=" ++ self.m_api_key
        ++ "&artist=" ++ toPercentEncoding a ++ "&track=" ++ toPercentEncoding t
        ++ "&format=json"] := by
  obtain ⟨h1, h2, h3, h4⟩ :=
    extracted_now_playing s attr img art front u a t hattr hnow himage hlink hartist hart hname
  have hcond : (!(extracted s self.m_current).artists.isEmpty
      && !(decide ((extracted s self.m_current).title = ""))) = true := by
    rw [hcur, h3, h4]
    simp [ht]
  rw [parse_song_eq, if_pos hcond]
  obtain ⟨m1, m2, -, m4, m5⟩ := merge_duration_other_fields
    (lastfm_request QJsonDocument.null
      (track_info_request self.m_api_key (extracted s self.m_current))
      (after_attr s self.m_current w)).1.1
    (lastfm_request QJsonDocument.null
      (track_info_request self.m_api_key (extracted s self.m_current))
      (after_attr s self.m_current w)).1.2
    (extracted s self.m_current)
  refine ⟨?_, ?_, ?_, ?_, ?_⟩
  · rw [m1, hcur, h1]
  · rw [m5, hcur, h2]
  · rw [m2, hcur, h3]
  · rw [m4, hcur, h4]
  · rw [lastfm_request_requests, requests_after_attr, hcur]
    simp only [track_info_request, h3, h4, List.getD_cons_zero]
    rfl

/-- C7, at the spec's example: cover `http://x/y.jpg`, artist `A`, name `T`. -/
theorem parse_song_now_playing_witness :
    (sample_source.m_current = song.cleared ∧
      QJsonObject.value sample_track "@attr"
        = QJsonValue.object [("nowplaying", QJsonValue.string "true")] ∧
      QJsonObject.value sample_track "image"
        = QJsonValue.array ([] ++ [QJsonValue.object [("#text", QJsonValue.string "http://x/y.jpg")]]) ∧
      QJsonObject.value sample_track "artist"
        = QJsonValue.object [("#text", QJsonValue.string "A")] ∧
      QJsonObject.value sample_track "name" = QJsonValue.string "T" ∧ "T" ≠ "") ∧
    (parse_song sample_track sample_source (World.start sample_clock [])).1.m_current.playing
      = true ∧
    (parse_song sample_track sample_source (World.start sample_clock [])).1.m_current.coverLink
      = "http://x/y.jpg" ∧
    (parse_song sample_track sample_source (World.start sample_clock [])).1.m_current.artists
      = ["A"] ∧
    (parse_song sample_track sample_source (World.start sample_clock [])).1.m_current.title
      = "T" ∧
    requests (parse_song sample_track sample_source (World.start sample_clock [])).2 =
      ["https://ws.audioscrobbler.com/2.0/?method=track.getInfo&api_key=key&artist=A&track=T&format=json"] :=
  ⟨⟨rfl, rfl, rfl, rfl, rfl, by decide⟩,
    parse_song_now_playing sample_track [("nowplaying", QJsonValue.string "true")]
      [("#text", QJsonValue.string "http://x/y.jpg")] [("#text", QJsonValue.string "A")] []
      "http://x/y.jpg" "A" "T" sample_source (World.start sample_clock [])
      rfl rfl rfl rfl rfl rfl rfl rfl (by decide)⟩

section duration_lookup

/-- A list is not itself with one more element. -/
theorem list_ne_append_singleton {α : Type} (l : List α) (x : α) : l ≠ l ++ [x] := by
  intro h
  have := congrArg List.length h
  simp at this

/-- When `parse_song` has issued a request, it is the lookup for the extracted
record, and the current track is that record with the answer merged in. -/
theorem parse_song_lookup (s : QJsonObject) (self : lastfm_source) (w : World) (url : String)
    (hreq : requests (parse_song s self w).2 = requests w ++ [url]) :
    url = track_info_request self.m_api_key (extracted s self.m_current) ∧
    (parse_song s self w).1.m_current =
      merge_duration
        (if (w.server (requests w).length url).res_ok then
          (w.server (requests w).length url).http_code else -1)
        (if (w.server (requests w).length url).res_ok then
          (w.server (requests w).length url).json else QJsonDocument.null)
        (extracted s self.m_current) := by
  rw [parse_song_eq] at hreq ⊢
  by_cases hcond : (!(extracted s self.m_current).artists.isEmpty
      && !(decide ((extracted s self.m_current).title = ""))) = true
  · rw [if_pos hcond] at hreq ⊢
    rw [lastfm_request_requests, requests_after_attr] at hreq
    have hurl : track_info_request self.m_api_key (extracted s self.m_current) = url := by
      simpa using hreq
    refine ⟨hurl.symm, ?_⟩
    dsimp only
    rw [lastfm_request_code, lastfm_request_json, requests_after_attr, server_after_attr, hurl]
  · rw [if_neg hcond] at hreq
    rw [requests_after_attr] at hreq
    exact absurd hreq (list_ne_append_singleton _ _)

theorem merge_duration_of_ne (code : Int) (d : QJsonDocument) (cur : song)
    (h : code ≠ HTTP_OK) : merge_duration code d cur = cur := by
  unfold merge_duration
  rw [if_neg h]

theorem merge_duration_of_not_object (code : Int) (d : QJsonDocument) (cur : song)
    (h : (d.get "track").isObject = false) : merge_duration code d cur = cur := by
  unfold merge_duration
  dsimp only
  split_ifs <;> simp_all

theorem merge_duration_of_not_string (code : Int) (d : QJsonDocument) (cur : song)
    (h : ((d.get "track").get "duration").isString = false) :
    merge_duration code d cur = cur := by
  unfold merge_duration
  dsimp only
  split_ifs <;> simp_all

theorem merge_duration_of_unparsable (code : Int) (d : QJsonDocument) (cur : song)
    (h : QString_toInt ((d.get "track").get "duration").toString = none) :
    merge_duration code d cur = cur := by
  unfold merge_duration
  dsimp only
  rw [h]
  split_ifs <;> rfl

end duration_lookup

/-- C8. When `parse_song` attempts the duration lookup (it issues a request):
if the transfer succeeds with HTTP 200 and `track.duration` is a string that
`QString::toInt` parses as `n`, `durationSeconds` becomes `n`; for every other
outcome (failed transfer, status other than 200, `track` not an object,
`duration` missing or not a string, string not parseable) `durationSeconds`
keeps the value it had before the lookup, which is the value it had when
`parse_song` was entered, the extraction steps never writing it. -/
theorem parse_song_duration (s : QJsonObject) (self : lastfm_source) (w : World) (url : String)
    (hreq : requests (parse_song s self w).2 = requests w ++ [url]) :
    (∀ (tr : QJsonObject) (d : String) (n : Int),
      (w.server (requests w).length url).res_ok = true →
      (w.server (requests w).length url).http_code = 200 →
      (w.server (requests w).length url).json.get "track" = QJsonValue.object tr →
      QJsonObject.value tr "duration" = QJsonValue.string d →
      QString_toInt d = some n →
      (parse_song s self w).1.m_current.durationSeconds = n) ∧
    ((w.server (requests w).length url).res_ok = false ∨
      (w.server (requests w).length url).http_code ≠ 200 ∨
      ((w.server (requests w).length url).json.get "track").isObject = false ∨
      (((w.server (requests w).length url).json.get "track").get "duration").isString = false ∨
      QString_toInt (((w.server (requests w).length url).json.get "track").get
        "duration").toString = none →
      (parse_song s self w).1.m_current.durationSeconds = self.m_current.durationSeconds) := by
  obtain ⟨-, hcur⟩ := parse_song_lookup s self w url hreq
  rw [hcur]
  constructor
  · intro tr d n hok hcode htrack hdur hint
    rw [if_pos hok, if_pos hok, hcode]
    simp [merge_duration, HTTP_OK, htrack, QJsonValue.isObject, QJsonValue.get,
      QJsonValue.toObject, hdur, QJsonValue.isString, QJsonValue.toString, hint,
      song.set_duration]
  · intro hother
    rw [← extracted_durationSeconds s self.m_current]
    by_cases hok : (w.server (requests w).length url).res_ok = true
    · rw [if_pos hok, if_pos hok]
      rcases hother with h | h | h | h | h
      · rw [hok] at h
        exact absurd h (by decide)
      · rw [merge_duration_of_ne _ _ _ h]
      · rw [merge_duration_of_not_object _ _ _ h]
      · rw [merge_duration_of_not_string _ _ _ h]
      · rw [merge_duration_of_unparsable _ _ _ h]
    · rw [if_neg hok, if_neg hok, merge_duration_of_ne _ _ _ (by decide)]

/-- C8, at the spec's example: the answer with duration `"215"` gives 215, and
a lookup whose transfer fails leaves the duration of the cleared record, 0. -/
theorem parse_song_duration_witness :
    (requests (parse_song sample_track sample_source
        (World.start sample_clock [reply_with 200 sample_track_info])).2 =
      requests (World.start sample_clock [reply_with 200 sample_track_info]) ++
        ["https://ws.audioscrobbler.com/2.0/?method=track.getInfo&api_key=key&artist=A&track=T&format=json"] ∧
      QString_toInt "215" = some 215) ∧
    (parse_song sample_track sample_source
      (World.start sample_clock [reply_with 200 sample_track_info])).1.m_current.durationSeconds
      = 215 ∧
    (parse_song sample_track sample_source
      (World.start sample_clock [])).1.m_current.durationSeconds = 0 :=
  ⟨⟨by decide, by decide⟩,
    (parse_song_duration sample_track sample_source
      (World.start sample_clock [reply_with 200 sample_track_info])
      "https://ws.audioscrobbler.com/2.0/?method=track.getInfo&api_key=key&artist=A&track=T&format=json"
      (by decide)).1 [("duration", QJsonValue.string "215")] "215" 215 rfl rfl rfl rfl (by decide),
    (parse_song_duration sample_track sample_source (World.start sample_clock [])
      "https://ws.audioscrobbler.com/2.0/?method=track.getInfo&api_key=key&artist=A&track=T&format=json"
      (by decide)).2 (Or.inl rfl)⟩

/-! ## The format validator -/

section validator

theorem matchesHere_iff (alt : List Atom) :
    ∀ text : List Char, matchesHere alt text = true ↔ ∃ word ∈ words alt, word <+: text := by
  induction alt with
  | nil =>
    intro text
    simp [matchesHere, words]
  | cons a rest ih =>
    intro text
    cases text with
    | nil =>
      cases a <;> simp [matchesHere, words]
    | cons c cs =>
      cases a with
      | lit x =>
        simp only [matchesHere, Atom.accepts, Bool.and_eq_true, beq_iff_eq, ih, words,
          List.mem_map]
        constructor
        · rintro ⟨hx, word, hw, hp⟩
          exact ⟨x :: word, ⟨word, hw, rfl⟩, List.cons_prefix_cons.mpr ⟨hx.symm, hp⟩⟩
        · rintro ⟨_, ⟨word, hw, rfl⟩, hp⟩
          obtain ⟨hx, hp⟩ := List.cons_prefix_cons.mp hp
          exact ⟨hx.symm, word, hw, hp⟩
      | cls ms =>
        simp only [matchesHere, Atom.accepts, Bool.and_eq_true, List.contains_iff_exists_mem_beq,
          beq_iff_eq, ih, words, List.mem_flatMap, List.mem_map]
        constructor
        · rintro ⟨⟨m, hm, hc⟩, word, hw, hp⟩
          exact ⟨m :: word, ⟨m, hm, word, hw, rfl⟩, List.cons_prefix_cons.mpr ⟨hc.symm, hp⟩⟩
        · rintro ⟨_, ⟨m, hm, word, hw, rfl⟩, hp⟩
          obtain ⟨hx, hp⟩ := List.cons_prefix_cons.mp hp
          exact ⟨⟨m, hm, hx.symm⟩, word, hw, hp⟩

theorem anyAltHere_iff (alts : List (List Atom)) (text : List Char) :
    anyAltHere alts text = true ↔ ∃ word ∈ alts.flatMap words, word <+: text := by
  simp only [anyAltHere, List.any_eq_true, matchesHere_iff, List.mem_flatMap]
  constructor
  · rintro ⟨alt, ha, word, hw, hp⟩
    exact ⟨word, ⟨alt, ha, hw⟩, hp⟩
  · rintro ⟨word, ⟨alt, ha, hw⟩, hp⟩
    exact ⟨alt, ha, word, hw, hp⟩

/-- The search finds a match exactly when a word of some alternative occurs in the text. -/
theorem hasMatch_iff (alts : List (List Atom)) :
    ∀ text : List Char, hasMatch alts text = true ↔ ∃ word ∈ alts.flatMap words, word <:+: text := by
  intro text
  induction text with
  | nil =>
    simp only [hasMatch, anyAltHere_iff, List.prefix_nil, List.infix_nil]
  | cons c cs ih =>
    simp only [hasMatch, Bool.or_eq_true, anyAltHere_iff, ih, List.infix_cons_iff]
    constructor
    · rintro (⟨word, hw, hp⟩ | ⟨word, hw, hp⟩)
      · exact ⟨word, hw, Or.inl hp⟩
      · exact ⟨word, hw, Or.inr hp⟩
    · rintro ⟨word, hw, hp | hp⟩
      · exact Or.inl ⟨word, hw, hp⟩
      · exact Or.inr ⟨word, hw, hp⟩

theorem reg_words : reg.flatMap words = rejected_words.map String.data := by decide

/-- What `valid_format` does: it answers false exactly for the strings that
contain one of `rejected_words`. A bare `%p`, `%P`, `%n` or `%N` is not among
them, and `%|` is. -/
theorem valid_format_eq_false_iff (str : String) :
    valid_format str = false ↔ ∃ word ∈ rejected_words, word.data <:+: str.data := by
  unfold valid_format
  rw [Bool.not_eq_false_eq_eq_true, hasMatch_iff, reg_words]
  simp only [List.mem_map]
  constructor
  · rintro ⟨_, ⟨word, hw, rfl⟩, hp⟩
    exact ⟨word, hw, hp⟩
  · rintro ⟨word, hw, hp⟩
    exact ⟨word.data, ⟨word, hw, rfl⟩, hp⟩

end validator

/-- C9. The claim that `valid_format` rejects every string containing `%p`,
`%b`, `%y`, `%d` or `%n` in either case fails on the code: the strings `"%p"`,
`"%P"`, `"%n"`, `"%N"` and `"title %N"` contain such a token and are accepted,
the pattern asking for a `/` before `%p` and for `/gm` after `%n`; the tokens
`%b`, `%y` and `%d` are rejected. -/
theorem valid_format_accepts_bare_p_and_n :
    valid_format "%p" = true ∧ valid_format "%P" = true ∧
    valid_format "%n" = true ∧ valid_format "%N" = true ∧
    valid_format "title %N" = true ∧
    valid_format "/%p" = false ∧ valid_format "%n/gm" = false ∧
    valid_format "%b" = false ∧ valid_format "%Y" = false ∧ valid_format "%d" = false := by
  decide

/-- C10. The claim that `valid_format` accepts every string without a
placeholder token fails on the code: `"%|"` and `"a %| b"` contain none of
`%p`, `%r`, `%b`, `%y`, `%d`, `%n` in either case and are rejected, `|` being a
member of every bracket class of the pattern; `"%t"` and a string without a
percent sign are accepted. -/
theorem valid_format_rejects_percent_bar :
    valid_format "%|" = false ∧ valid_format "a %| b" = false ∧
    valid_format "%t" = true ∧ valid_format "no percent sign" = true := by
  decide

/-! ## Configuration -/

/-- C11. After `load()`: `m_custom_api_key` is true exactly when the configured
API key is non-empty; `m_api_key` is the configured key when that is non-empty
and the built-in shared key otherwise; `m_username` is the configured user
name. The time stamp and the current track are not touched. -/
theorem load_sets_credentials (config : Config) (LASTFM_CREDENTIALS : String)
    (self : lastfm_source) :
    ((load config LASTFM_CREDENTIALS self).m_custom_api_key = true ↔
      config.CFG_LASTFM_API_KEY ≠ "") ∧
    (load config LASTFM_CREDENTIALS self).m_api_key =
      (if config.CFG_LASTFM_API_KEY = "" then LASTFM_CREDENTIALS
        else config.CFG_LASTFM_API_KEY) ∧
    (load config LASTFM_CREDENTIALS self).m_username = config.CFG_LASTFM_USERNAME ∧
    (load config LASTFM_CREDENTIALS self).m_next_refresh = self.m_next_refresh ∧
    (load config LASTFM_CREDENTIALS self).m_current = self.m_current := by
  unfold load
  by_cases h : config.CFG_LASTFM_API_KEY = "" <;> simp [h]

/-- The two cases of `load` on the sample configurations. -/
theorem load_samples :
    (load sample_config_shared "shared" sample_source).m_custom_api_key = false ∧
    (load sample_config_shared "shared" sample_source).m_api_key = "shared" ∧
    (load sample_config_custom "shared" sample_source).m_custom_api_key = true ∧
    (load sample_config_custom "shared" sample_source).m_api_key = "mine" := by
  decide

/-! ## Field by field -/

section field_lemmas

theorem parse_attr_playing (s : QJsonObject) (cur : song) :
    (parse_attr s cur).playing
      = (((QJsonObject.value s "@attr").get "nowplaying").toString == "true") := by
  unfold parse_attr
  dsimp only
  split_ifs <;> simp_all [song.set_playing, song.set_cover_link]

theorem parse_attr_keeps (s : QJsonObject) (cur : song) :
    (parse_attr s cur).artists = cur.artists ∧ (parse_attr s cur).album = cur.album ∧
    (parse_attr s cur).title = cur.title := by
  unfold parse_attr
  dsimp only
  split_ifs <;> simp [song.set_playing, song.set_cover_link]

theorem parse_fields_keeps (s : QJsonObject) (cur : song) :
    (parse_fields s cur).playing = cur.playing ∧
    (parse_fields s cur).coverLink = cur.coverLink := by
  unfold parse_fields
  dsimp only
  split_ifs <;> simp [song.append_artist, song.set_album, song.set_title]

theorem parse_fields_artists (s : QJsonObject) (cur : song) :
    (parse_fields s cur).artists =
      if (QJsonObject.value s "artist").isObject = true then
        cur.artists ++ [((QJsonObject.value s "artist").get "#text").toString]
      else cur.artists := by
  unfold parse_fields
  dsimp only
  split_ifs <;> simp [song.append_artist, song.set_album, song.set_title]

theorem parse_fields_album (s : QJsonObject) (cur : song) :
    (parse_fields s cur).album =
      if (QJsonObject.value s "album").isObject = true then
        ((QJsonObject.value s "album").get "#text").toString
      else cur.album := by
  unfold parse_fields
  dsimp only
  split_ifs <;> simp [song.append_artist, song.set_album, song.set_title]

theorem parse_fields_title (s : QJsonObject) (cur : song) :
    (parse_fields s cur).title =
      if (QJsonObject.value s "name").isString = true then
        (QJsonObject.value s "name").toString
      else cur.title := by
  unfold parse_fields
  dsimp only
  split_ifs <;> simp [song.append_artist, song.set_album, song.set_title]

/-- The cover link after the `@attr` block, spelled out. -/
theorem parse_attr_coverLink (s : QJsonObject) (cur : song) :
    (parse_attr s cur).coverLink =
      if (parse_attr s cur).playing = true ∧ (QJsonObject.value s "image").isArray = true ∧
          0 < (QJsonObject.value s "image").toArray.length ∧
          (QJsonArray.at (QJsonObject.value s "image").toArray
            ((QJsonObject.value s "image").toArray.length - 1)).isObject = true then
        (QJsonObject.value (QJsonArray.at (QJsonObject.value s "image").toArray
          ((QJsonObject.value s "image").toArray.length - 1)).toObject "#text").toString
      else cur.coverLink := by
  rw [parse_attr_playing]
  unfold parse_attr
  dsimp only
  by_cases h1 : (((QJsonObject.value s "@attr").get "nowplaying").toString == "true") = true
  · by_cases h2 : (QJsonObject.value s "image").isArray = true
    · by_cases h3 : 0 < (QJsonObject.value s "image").toArray.length
      · by_cases h4 : (QJsonArray.at (QJsonObject.value s "image").toArray
            ((QJsonObject.value s "image").toArray.length - 1)).isObject = true
        · simp [h1, h2, h3, h4, song.set_playing, song.set_cover_link]
        · simp [h1, h2, h3, h4, song.set_playing]
      · simp [h1, h2, h3, song.set_playing]
    · simp [h1, h2, song.set_playing]
  · simp [h1, song.set_playing]

/-- The fields of the record `parse_song` leaves, duration apart, are those of
the extraction: the duration lookup changes none of them. -/
theorem parse_song_current_fields (s : QJsonObject) (self : lastfm_source) (w : World) :
    (parse_song s self w).1.m_current.playing = (extracted s self.m_current).playing ∧
    (parse_song s self w).1.m_current.artists = (extracted s self.m_current).artists ∧
    (parse_song s self w).1.m_current.album = (extracted s self.m_current).album ∧
    (parse_song s self w).1.m_current.title = (extracted s self.m_current).title ∧
    (parse_song s self w).1.m_current.coverLink = (extracted s self.m_current).coverLink := by
  rw [parse_song_eq]
  split_ifs
  · exact merge_duration_other_fields _ _ _
  · exact ⟨rfl, rfl, rfl, rfl, rfl⟩

theorem extracted_playing (s : QJsonObject) (cur : song) :
    (extracted s cur).playing =
      if (QJsonObject.value s "@attr").isObject = true then
        (((QJsonObject.value s "@attr").get "nowplaying").toString == "true")
      else cur.playing := by
  unfold extracted
  rw [(parse_fields_keeps s _).1]
  split_ifs
  · exact parse_attr_playing s cur
  · rfl

theorem extracted_coverLink (s : QJsonObject) (cur : song) :
    (extracted s cur).coverLink =
      if (QJsonObject.value s "@attr").isObject = true then (parse_attr s cur).coverLink
      else cur.coverLink := by
  unfold extracted
  rw [(parse_fields_keeps s _).2]
  split_ifs <;> rfl

theorem extracted_artists (s : QJsonObject) (cur : song) :
    (extracted s cur).artists =
      if (QJsonObject.value s "artist").isObject = true then
        cur.artists ++ [((QJsonObject.value s "artist").get "#text").toString]
      else cur.artists := by
  unfold extracted
  rw [parse_fields_artists]
  split_ifs <;> simp [(parse_attr_keeps s cur).1]

theorem extracted_album (s : QJsonObject) (cur : song) :
    (extracted s cur).album =
      if (QJsonObject.value s "album").isObject = true then
        ((QJsonObject.value s "album").get "#text").toString
      else cur.album := by
  unfold extracted
  rw [parse_fields_album]
  split_ifs <;> simp [(parse_attr_keeps s cur).2.1]

theorem extracted_title (s : QJsonObject) (cur : song) :
    (extracted s cur).title =
      if (QJsonObject.value s "name").isString = true then
        (QJsonObject.value s "name").toString
      else cur.title := by
  unfold extracted
  rw [parse_fields_title]
  split_ifs <;> simp [(parse_attr_keeps s cur).2.2]

/-- The string read from a value is `"true"` exactly for the JSON string `"true"`. -/
theorem toString_eq_true_iff (v : QJsonValue) :
    (v.toString == "true") = true ↔ v = QJsonValue.string "true" := by
  cases v <;> simp [QJsonValue.toString]

end field_lemmas

section cover_lemmas

@[simp] theorem cover_downloads_emit_request (w : World) (url : String) :
    cover_downloads (w.emit (Event.request url)) = cover_downloads w := by
  simp [cover_downloads, World.emit, List.filterMap_append]

@[simp] theorem cover_downloads_emit_berr (w : World) (fmt : String) :
    cover_downloads (w.emit (Event.berr fmt)) = cover_downloads w := by
  simp [cover_downloads, World.emit, List.filterMap_append]

@[simp] theorem cover_downloads_download_cover (w : World) (s : song) :
    cover_downloads (download_cover s w) = cover_downloads w ++ [s] := by
  simp [cover_downloads, download_cover, World.emit, List.filterMap_append]

theorem lastfm_request_cover_downloads (d : QJsonDocument) (url : String) (w : World) :
    cover_downloads (lastfm_request d url w).2 = cover_downloads w := by
  unfold lastfm_request
  dsimp only
  split_ifs <;> simp

theorem cover_downloads_after_attr (s : QJsonObject) (cur : song) (w : World) :
    cover_downloads (after_attr s cur w) = cover_downloads w ++
      (if (QJsonObject.value s "@attr").isObject = true then [parse_attr s cur] else []) := by
  unfold after_attr
  split_ifs <;> simp

/-- The `@attr` block reads only the members `@attr` and `image`. -/
theorem parse_attr_congr (s s2 : QJsonObject) (cur : song)
    (hattr : QJsonObject.value s "@attr" = QJsonObject.value s2 "@attr")
    (himage : QJsonObject.value s "image" = QJsonObject.value s2 "image") :
    parse_attr s cur = parse_attr s2 cur := by
  unfold parse_attr
  rw [hattr, himage]

end cover_lemmas

/-- C14, as the code has it. `parse_song` triggers the cover-download
collaborator exactly once when `@attr` is an object, and not at all otherwise,
whatever `playing` and the `image` array are; the record it hands over is the
current track as the `@attr` block leaves it. -/
theorem parse_song_cover_download (s : QJsonObject) (self : lastfm_source) (w : World) :
    cover_downloads (parse_song s self w).2 = cover_downloads w ++
      (if (QJsonObject.value s "@attr").isObject = true then [parse_attr s self.m_current]
        else []) := by
  rw [parse_song_eq]
  split_ifs <;>
    simp_all [lastfm_request_cover_downloads, cover_downloads_after_attr]

/-- C14 fails as stated: a track with `@attr.nowplaying == "false"` triggers a
cover download though `playing` is false, and a playing track without an
`image` member triggers one though there is no image array. -/
theorem parse_song_cover_download_counterexample :
    ¬ (cover_downloads (parse_song sample_track_not_playing sample_source
          (World.start sample_clock [])).2 ≠ cover_downloads (World.start sample_clock []) →
        (parse_song sample_track_not_playing sample_source
          (World.start sample_clock [])).1.m_current.playing = true ∧
        (QJsonObject.value sample_track_not_playing "image").isArray = true ∧
        0 < (QJsonObject.value sample_track_not_playing "image").toArray.length) ∧
    ¬ (cover_downloads (parse_song sample_track_no_image sample_source
          (World.start sample_clock [])).2 ≠ cover_downloads (World.start sample_clock []) →
        (parse_song sample_track_no_image sample_source
          (World.start sample_clock [])).1.m_current.playing = true ∧
        (QJsonObject.value sample_track_no_image "image").isArray = true ∧
        0 < (QJsonObject.value sample_track_no_image "image").toArray.length) := by
  constructor
  · intro h
    exact absurd (h (by decide)).1 (by decide)
  · intro h
    exact absurd (h (by decide)).2.1 (by decide)

/-- C15. For a track object parsed into a cleared current track: `coverLink`
is non-empty only if `playing` is true and the object carries a non-empty
`image` array; and when `playing` is true and the `image` array is non-empty,
`coverLink` is the `#text` of its last element, read as a string. -/
theorem parse_song_cover_link (s : QJsonObject) (self : lastfm_source) (w : World)
    (hcur : self.m_current = song.cleared) :
    ((parse_song s self w).1.m_current.coverLink ≠ "" →
      (parse_song s self w).1.m_current.playing = true ∧
      (QJsonObject.value s "image").isArray = true ∧
      (QJsonObject.value s "image").toArray ≠ []) ∧
    (∀ (front : List QJsonValue) (last : QJsonValue),
      (parse_song s self w).1.m_current.playing = true →
      QJsonObject.value s "image" = QJsonValue.array (front ++ [last]) →
      (parse_song s self w).1.m_current.coverLink = (last.get "#text").toString) := by
  obtain ⟨hp, -, -, -, hc⟩ := parse_song_current_fields s self w
  rw [hp, hc, extracted_playing, extracted_coverLink, hcur]
  by_cases hattr : (QJsonObject.value s "@attr").isObject = true
  · rw [if_pos hattr, if_pos hattr, parse_attr_coverLink, parse_attr_playing]
    constructor
    · intro hne
      split_ifs at hne with hall
      · exact ⟨hall.1, hall.2.1, List.length_pos.mp hall.2.2.1⟩
      · exact absurd rfl hne
    · intro front last hplay himage
      have hlast := QJsonArray_at_last front last
      simp only [himage, QJsonValue.isArray, QJsonValue.toArray, hlast, hplay, true_and]
      by_cases hobj : last.isObject = true
      · rw [if_pos ⟨by simp, hobj⟩]
        rfl
      · rw [if_neg (fun h => hobj h.2)]
        cases last <;> simp_all [QJsonValue.isObject, QJsonValue.get, QJsonValue.toObject,
          QJsonObject.value, QJsonValue.toString, song.cleared]
  · rw [if_neg hattr, if_neg hattr]
    constructor
    · intro hne
      exact absurd rfl hne
    · intro front last hplay
      exact absurd hplay (by simp [song.cleared])

/-- C15 at a playing track with two images: the cover link is the second one. -/
theorem parse_song_cover_link_witness :
    sample_source.m_current = song.cleared ∧
    (parse_song sample_track_two_images sample_source
      (World.start sample_clock [])).1.m_current.coverLink = "http://x/large.jpg" ∧
    ((parse_song sample_track_two_images sample_source
      (World.start sample_clock [])).1.m_current.playing = true ∧
     (QJsonObject.value sample_track_two_images "image").isArray = true ∧
     (QJsonObject.value sample_track_two_images "image").toArray ≠ []) :=
  ⟨rfl,
    (parse_song_cover_link sample_track_two_images sample_source (World.start sample_clock [])
      rfl).2 [QJsonValue.object [("#text", QJsonValue.string "http://x/small.jpg")]]
      (QJsonValue.object [("#text", QJsonValue.string "http://x/large.jpg")]) (by decide) rfl,
    (parse_song_cover_link sample_track_two_images sample_source (World.start sample_clock [])
      rfl).1 (by decide)⟩

/-- C16. For a track object whose `@attr` is an object, `parse_song` leaves
`playing` true if and only if `@attr.nowplaying` is the JSON string `"true"`,
whatever the record held before. -/
theorem parse_song_playing_iff (s attr : QJsonObject) (self : lastfm_source) (w : World)
    (hattr : QJsonObject.value s "@attr" = QJsonValue.object attr) :
    (parse_song s self w).1.m_current.playing = true ↔
      QJsonObject.value attr "nowplaying" = QJsonValue.string "true" := by
  rw [(parse_song_current_fields s self w).1, extracted_playing, hattr]
  simp only [QJsonValue.isObject, if_true, QJsonValue.get, QJsonValue.toObject]
  exact toString_eq_true_iff _

/-- C16 at the values of the claim: the string `"true"` gives `playing`, the
JSON boolean `true`, `"True"`, `"1"` and a missing `nowplaying` do not. -/
theorem parse_song_playing_iff_witness :
    (parse_song (sample_track_nowplaying (QJsonValue.string "true")) sample_source
      (World.start sample_clock [])).1.m_current.playing = true ∧
    (parse_song (sample_track_nowplaying (QJsonValue.bool true)) sample_source
      (World.start sample_clock [])).1.m_current.playing = false ∧
    (parse_song (sample_track_nowplaying (QJsonValue.string "True")) sample_source
      (World.start sample_clock [])).1.m_current.playing = false ∧
    (parse_song (sample_track_nowplaying (QJsonValue.string "1")) sample_source
      (World.start sample_clock [])).1.m_current.playing = false ∧
    (parse_song [("@attr", QJsonValue.object [])] sample_source
      (World.start sample_clock [])).1.m_current.playing = false :=
  ⟨(parse_song_playing_iff (sample_track_nowplaying (QJsonValue.string "true"))
      [("nowplaying", QJsonValue.string "true")] sample_source (World.start sample_clock [])
      rfl).mpr rfl,
    Bool.eq_false_iff.mpr fun h =>
      absurd ((parse_song_playing_iff (sample_track_nowplaying (QJsonValue.bool true))
        [("nowplaying", QJsonValue.bool true)] sample_source (World.start sample_clock [])
        rfl).mp h) (by simp [QJsonObject.value]),
    Bool.eq_false_iff.mpr fun h =>
      absurd ((parse_song_playing_iff (sample_track_nowplaying (QJsonValue.string "True"))
        [("nowplaying", QJsonValue.string "True")] sample_source (World.start sample_clock [])
        rfl).mp h) (by simp [QJsonObject.value]),
    Bool.eq_false_iff.mpr fun h =>
      absurd ((parse_song_playing_iff (sample_track_nowplaying (QJsonValue.string "1"))
        [("nowplaying", QJsonValue.string "1")] sample_source (World.start sample_clock [])
        rfl).mp h) (by simp [QJsonObject.value]),
    Bool.eq_false_iff.mpr fun h =>
      absurd ((parse_song_playing_iff [("@attr", QJsonValue.object [])]
        [] sample_source (World.start sample_clock []) rfl).mp h)
        (by simp [QJsonObject.value])⟩

/-- C17. Field extraction in `parse_song` is independent per field. When
`@attr` is absent or not an object, `playing` and `coverLink` keep their prior
values; when `artist` is absent or not an object, `artists` is unchanged; when
`album` is absent or not an object, `album` is unchanged; when `name` is absent
or not a string, `title` is unchanged. And each extracted value is read from
its own member only: two track objects that agree on `@attr` (and `image`) give
the same `playing` and `coverLink`, two that agree on `artist` the same
`artists`, on `album` the same `album`, on `name` the same `title`, however
they differ elsewhere and whatever the server answers. -/
theorem parse_song_fields_independent (s s2 : QJsonObject) (self : lastfm_source)
    (w w2 : World) :
    ((QJsonObject.value s "@attr").isObject = false →
      (parse_song s self w).1.m_current.playing = self.m_current.playing ∧
      (parse_song s self w).1.m_current.coverLink = self.m_current.coverLink) ∧
    ((QJsonObject.value s "artist").isObject = false →
      (parse_song s self w).1.m_current.artists = self.m_current.artists) ∧
    ((QJsonObject.value s "album").isObject = false →
      (parse_song s self w).1.m_current.album = self.m_current.album) ∧
    ((QJsonObject.value s "name").isString = false →
      (parse_song s self w).1.m_current.title = self.m_current.title) ∧
    (QJsonObject.value s "@attr" = QJsonObject.value s2 "@attr" →
      QJsonObject.value s "image" = QJsonObject.value s2 "image" →
      (parse_song s self w).1.m_current.playing = (parse_song s2 self w2).1.m_current.playing ∧
      (parse_song s self w).1.m_current.coverLink
        = (parse_song s2 self w2).1.m_current.coverLink) ∧
    (QJsonObject.value s "artist" = QJsonObject.value s2 "artist" →
      (parse_song s self w).1.m_current.artists = (parse_song s2 self w2).1.m_current.artists) ∧
    (QJsonObject.value s "album" = QJsonObject.value s2 "album" →
      (parse_song s self w).1.m_current.album = (parse_song s2 self w2).1.m_current.album) ∧
    (QJsonObject.value s "name" = QJsonObject.value s2 "name" →
      (parse_song s self w).1.m_current.title = (parse_song s2 self w2).1.m_current.title) := by
  obtain ⟨hp, ha, hb, ht, hc⟩ := parse_song_current_fields s self w
  obtain ⟨hp2, ha2, hb2, ht2, hc2⟩ := parse_song_current_fields s2 self w2
  rw [hp, ha, hb, ht, hc, hp2, ha2, hb2, ht2, hc2]
  simp only [extracted_playing, extracted_coverLink, extracted_artists, extracted_album,
    extracted_title]
  refine ⟨?_, ?_, ?_, ?_, ?_, ?_, ?_, ?_⟩
  · intro h
    simp [h]
  · intro h
    simp [h]
  · intro h
    simp [h]
  · intro h
    simp [h]
  · intro h1 h2
    rw [parse_attr_congr s s2 self.m_current h1 h2, h1]
    exact ⟨rfl, rfl⟩
  · intro h
    rw [h]
  · intro h
    rw [h]
  · intro h
    rw [h]

/-- C17 at sample tracks: a track with nothing but `@attr` leaves artists,
album and title as they were, a track with nothing but artist and name leaves
`playing` and `coverLink`, and dropping artist and name from the spec's example
changes neither `playing` nor `coverLink`. -/
theorem parse_song_fields_independent_witness :
    ((parse_song sample_track_no_image sample_source
        (World.start sample_clock [])).1.m_current.artists = sample_source.m_current.artists ∧
      (parse_song sample_track_no_image sample_source
        (World.start sample_clock [])).1.m_current.album = sample_source.m_current.album ∧
      (parse_song sample_track_no_image sample_source
        (World.start sample_clock [])).1.m_current.title = sample_source.m_current.title) ∧
    ((parse_song sample_track_blank_artist sample_source
        (World.start sample_clock [])).1.m_current.playing = sample_source.m_current.playing ∧
      (parse_song sample_track_blank_artist sample_source
        (World.start sample_clock [])).1.m_current.coverLink
        = sample_source.m_current.coverLink) ∧
    ((parse_song sample_track sample_source
        (World.start sample_clock [reply_with 200 sample_track_info])).1.m_current.playing
        = (parse_song sample_track_cover_only sample_source
            (World.start sample_clock [])).1.m_current.playing ∧
      (parse_song sample_track sample_source
        (World.start sample_clock [reply_with 200 sample_track_info])).1.m_current.coverLink
        = (parse_song sample_track_cover_only sample_source
            (World.start sample_clock [])).1.m_current.coverLink) :=
  ⟨⟨(parse_song_fields_independent sample_track_no_image sample_track_no_image sample_source
        (World.start sample_clock []) (World.start sample_clock [])).2.1 rfl,
      (parse_song_fields_independent sample_track_no_image sample_track_no_image sample_source
        (World.start sample_clock []) (World.start sample_clock [])).2.2.1 rfl,
      (parse_song_fields_independent sample_track_no_image sample_track_no_image sample_source
        (World.start sample_clock []) (World.start sample_clock [])).2.2.2.1 rfl⟩,
    (parse_song_fields_independent sample_track_blank_artist sample_track_blank_artist
      sample_source (World.start sample_clock []) (World.start sample_clock [])).1 rfl,
    (parse_song_fields_independent sample_track sample_track_cover_only sample_source
      (World.start sample_clock [reply_with 200 sample_track_info])
      (World.start sample_clock [])).2.2.2.2.1 rfl rfl⟩

/-! ## When the second request is issued -/

section second_request

/-- The lookup URL reads the first artist and the title only. -/
theorem track_info_request_congr (key : String) (c1 c2 : song)
    (ha : c1.artists = c2.artists) (ht : c1.title = c2.title) :
    track_info_request key c1 = track_info_request key c2 := by
  unfold track_info_request
  rw [ha, ht]

/-- The requests of `parse_song`: none, or the one lookup, which goes out
exactly when the record holds an artist entry and a non-empty title. -/
theorem parse_song_requests (s : QJsonObject) (self : lastfm_source) (w : World) :
    (requests (parse_song s self w).2 = requests w ∧
      ¬ ((parse_song s self w).1.m_current.artists ≠ [] ∧
        (parse_song s self w).1.m_current.title ≠ "")) ∨
    (requests (parse_song s self w).2 = requests w ++
        [track_info_request self.m_api_key (parse_song s self w).1.m_current] ∧
      (parse_song s self w).1.m_current.artists ≠ [] ∧
      (parse_song s self w).1.m_current.title ≠ "") := by
  obtain ⟨-, ha, -, ht, -⟩ := parse_song_current_fields s self w
  rw [ha, ht, track_info_request_congr self.m_api_key _ _ ha ht]
  rw [parse_song_eq]
  by_cases hcond : (!(extracted s self.m_current).artists.isEmpty
      && !(decide ((extracted s self.m_current).title = ""))) = true
  · rw [if_pos hcond]
    right
    refine ⟨by rw [lastfm_request_requests, requests_after_attr], ?_⟩
    simpa [List.isEmpty_iff] using hcond
  · rw [if_neg hcond]
    left
    refine ⟨requests_after_attr _ _ _, ?_⟩
    simpa [List.isEmpty_iff] using hcond

end second_request

/-- C13, as the code has it. `parse_song` attempts the duration lookup exactly
when, after the extraction, `title` is non-empty and `artists` has at least one
entry; the entry may be the empty string. The request it then issues is the
`track.getInfo` one for the first artist and the title. -/
theorem parse_song_attempts_lookup_iff (s : QJsonObject) (self : lastfm_source) (w : World) :
    (requests (parse_song s self w).2 ≠ requests w ↔
      (parse_song s self w).1.m_current.artists ≠ [] ∧
      (parse_song s self w).1.m_current.title ≠ "") ∧
    (requests (parse_song s self w).2 = requests w ∨
      requests (parse_song s self w).2 = requests w ++
        [track_info_request self.m_api_key (parse_song s self w).1.m_current]) := by
  rcases parse_song_requests s self w with ⟨h1, h2⟩ | ⟨h1, h2⟩
  · exact ⟨⟨fun h => absurd h1 h, fun h => absurd h h2⟩, Or.inl h1⟩
  · refine ⟨⟨fun _ => h2, fun _ => ?_⟩, Or.inr h1⟩
    rw [h1]
    exact (list_ne_append_singleton _ _).symm

/-- C13 fails as stated: for a track with `"artist": {}` and the name `T`,
parsed into a cleared record, the lookup is issued (with an empty `artist`
parameter) though no entry of `artists` is a non-empty string: the one entry
is the empty string. -/
theorem parse_song_attempts_lookup_counterexample :
    ¬ (requests (parse_song sample_track_blank_artist sample_source
          (World.start sample_clock [])).2 ≠ requests (World.start sample_clock []) →
        (parse_song sample_track_blank_artist sample_source
          (World.start sample_clock [])).1.m_current.title ≠ "" ∧
        ∃ a ∈ (parse_song sample_track_blank_artist sample_source
          (World.start sample_clock [])).1.m_current.artists, a ≠ "") ∧
    requests (parse_song sample_track_blank_artist sample_source
      (World.start sample_clock [])).2 =
      ["https://ws.audioscrobbler.com/2.0/?method=track.getInfo&api_key=key&artist=&track=T&format=json"] ∧
    (parse_song sample_track_blank_artist sample_source
      (World.start sample_clock [])).1.m_current.artists = [""] := by
  refine ⟨fun h => ?_, by decide, by decide⟩
  obtain ⟨a, ha, hne⟩ := (h (by decide)).2
  have hart : (parse_song sample_track_blank_artist sample_source
      (World.start sample_clock [])).1.m_current.artists = [""] := by decide
  rw [hart] at ha
  exact hne (by simpa using ha)

section request_count

theorem handle_recent_tracks_requests (d : QJsonDocument) (self : lastfm_source) (w : World) :
    requests (handle_recent_tracks d self w).2 = requests w ∨
    (requests (handle_recent_tracks d self w).2 = requests w ++
        [track_info_request self.m_api_key (handle_recent_tracks d self w).1.m_current] ∧
      (handle_recent_tracks d self w).1.m_current.artists ≠ [] ∧
      (handle_recent_tracks d self w).1.m_current.title ≠ "") := by
  unfold handle_recent_tracks
  dsimp only
  split_ifs
  · rcases parse_song_requests ((QJsonArray.at ((d.get "recenttracks").get "track").toArray
      0).toObject) self w with ⟨h1, -⟩ | h
    · exact Or.inl h1
    · exact Or.inr h
  · exact Or.inl rfl
  · exact Or.inl rfl
  · exact Or.inl rfl

/-- A status of 200 from `lastfm_request` means the transfer succeeded with code 200. -/
theorem lastfm_request_ok (d : QJsonDocument) (url : String) (w : World)
    (h : (lastfm_request d url w).1.1 = HTTP_OK) :
    (w.server (requests w).length url).res_ok = true ∧
    (w.server (requests w).length url).http_code = 200 := by
  rw [lastfm_request_code] at h
  by_cases hok : (w.server (requests w).length url).res_ok = true
  · rw [if_pos hok] at h
    exact ⟨hok, h⟩
  · rw [if_neg hok] at h
    exact absurd h (by decide)

/-- Reading the current track through the pair a poll returns. -/
theorem stamped_fst_current (a : lastfm_source) (n : Nat) (y : World) :
    (({ a with m_next_refresh := n }, y) : lastfm_source × World).1.m_current
      = a.m_current := rfl

/-- Reading the requests through the pair a poll returns. -/
theorem stamped_snd_requests (x : lastfm_source) (y : World) :
    requests ((x, (os_gettime_ns y).2) : lastfm_source × World).2 = requests y := rfl

/-- The requests of one poll: the recent-tracks one, and after it at most the lookup. -/
theorem poll_requests (self : lastfm_source) (w : World) :
    requests (poll self w).2 = requests w ++ [recent_tracks_request self] ∨
    (requests (poll self w).2 = requests w ++ [recent_tracks_request self,
        track_info_request self.m_api_key (poll self w).1.m_current] ∧
      (w.server (requests w).length (recent_tracks_request self)).res_ok = true ∧
      (w.server (requests w).length (recent_tracks_request self)).http_code = 200 ∧
      (poll self w).1.m_current.artists ≠ [] ∧
      (poll self w).1.m_current.title ≠ "") := by
  have hurl : recent_tracks_request { self with m_current := self.m_current.clear }
      = recent_tracks_request self := rfl
  have hreq := lastfm_request_requests QJsonDocument.null (recent_tracks_request self) w
  have hok := lastfm_request_ok QJsonDocument.null (recent_tracks_request self) w
  have hh := handle_recent_tracks_requests
    (lastfm_request QJsonDocument.null (recent_tracks_request self) w).1.2
    { self with m_current := self.m_current.clear }
    (lastfm_request QJsonDocument.null (recent_tracks_request self) w).2
  unfold poll
  dsimp only
  rw [hurl]
  generalize handle_recent_tracks
    (lastfm_request QJsonDocument.null (recent_tracks_request self) w).1.2
    { self with m_current := self.m_current.clear }
    (lastfm_request QJsonDocument.null (recent_tracks_request self) w).2 = p at hh ⊢
  by_cases hcode : (lastfm_request QJsonDocument.null (recent_tracks_request self) w).1.1
      = HTTP_OK
  · rw [if_pos hcode]
    obtain ⟨h1, h200⟩ := hok hcode
    rw [stamped_snd_requests _ p.2, stamped_fst_current p.1
      (((os_gettime_ns p.2).1 + 5000000000) % UINT64_MOD) (os_gettime_ns p.2).2]
    rcases hh with h | ⟨h, ha, ht⟩
    · left
      rw [h, hreq]
    · right
      refine ⟨?_, h1, h200, ha, ht⟩
      rw [h, hreq, List.append_assoc, List.singleton_append]
  · rw [if_neg hcode]
    left
    rw [stamped_snd_requests, requests_emit_berr]
    exact hreq

end request_count

/-- C12. For every state, clock and server, one call of `refresh()` issues no
request, or the `user.getrecenttracks` request alone, or that request followed
by one `track.getInfo` request: at most two. The second is issued after the
first, and only when the first transfer succeeded with HTTP 200 and the poll
produced a non-empty `artists` list and a non-empty `title`. -/
theorem refresh_at_most_two_requests (self : lastfm_source) (w : World) :
    requests (refresh self w).2 = requests w ∨
    requests (refresh self w).2 = requests w ++ [recent_tracks_request self] ∨
    (requests (refresh self w).2 = requests w ++ [recent_tracks_request self,
        track_info_request self.m_api_key (refresh self w).1.m_current] ∧
      (w.server (requests w).length (recent_tracks_request self)).res_ok = true ∧
      (w.server (requests w).length (recent_tracks_request self)).http_code = 200 ∧
      (refresh self w).1.m_current.artists ≠ [] ∧
      (refresh self w).1.m_current.title ≠ "") := by
  unfold refresh
  by_cases hkey : self.m_api_key = ""
  · rw [if_pos hkey]
    exact Or.inl (by simp)
  · rw [if_neg hkey]
    by_cases huser : self.m_username = ""
    · rw [if_pos huser]
      exact Or.inl rfl
    · rw [if_neg huser]
      by_cases hcustom : self.m_custom_api_key = true
      · rw [if_pos hcustom]
        exact Or.inr (poll_requests self w)
      · rw [if_neg hcustom]
        dsimp only
        by_cases hearly : (os_gettime_ns w).1 < self.m_next_refresh
        · rw [if_pos hearly]
          exact Or.inl rfl
        · rw [if_neg hearly]
          exact Or.inr (poll_requests self (os_gettime_ns w).2)

/-- The three cases of C12 on sample inputs: a rate-limited call, a poll
answered with an empty track list, and a poll that finds the spec's example. -/
theorem refresh_request_counts :
    requests (refresh sample_limited (World.start sample_clock [])).2 = [] ∧
    (requests (refresh sample_source
      (World.start sample_clock [reply_with 200 sample_no_tracks])).2).length = 1 ∧
    requests (refresh sample_source (World.start sample_clock
      [reply_with 200 (QJsonDocument.object [("recenttracks", QJsonValue.object
        [("track", QJsonValue.array [QJsonValue.object sample_track])])]),
       reply_with 200 sample_track_info])).2 =
      ["https://ws.audioscrobbler.com/2.0/?method=user.getrecenttracks&user=user&api_key=key&limit=1&format=json",
       "https://ws.audioscrobbler.com/2.0/?method=track.getInfo&api_key=key&artist=A&track=T&format=json"] := by
  decide

/-! ## The interval between polls -/

section spacing

@[simp] theorem with_next_refresh_m_next_refresh (a : lastfm_source) (n : Nat) :
    (with_next_refresh a n).m_next_refresh = n := rfl

@[simp] theorem with_next_refresh_m_current (a : lastfm_source) (n : Nat) :
    (with_next_refresh a n).m_current = a.m_current := rfl

@[simp] theorem with_next_refresh_m_username (a : lastfm_source) (n : Nat) :
    (with_next_refresh a n).m_username = a.m_username := rfl

@[simp] theorem with_next_refresh_m_api_key (a : lastfm_source) (n : Nat) :
    (with_next_refresh a n).m_api_key = a.m_api_key := rfl

@[simp] theorem with_next_refresh_m_custom_api_key (a : lastfm_source) (n : Nat) :
    (with_next_refresh a n).m_custom_api_key = a.m_custom_api_key := rfl

/-- The source a poll leaves after a status of 200. -/
theorem poll_fst_ok (self : lastfm_source) (w : World)
    (h : (lastfm_request QJsonDocument.null (recent_tracks_request self) w).1.1 = HTTP_OK) :
    (poll self w).1 = with_next_refresh
      (handle_recent_tracks
        (lastfm_request QJsonDocument.null (recent_tracks_request self) w).1.2
        { self with m_current := self.m_current.clear }
        (lastfm_request QJsonDocument.null (recent_tracks_request self) w).2).1
      (((os_gettime_ns (handle_recent_tracks
        (lastfm_request QJsonDocument.null (recent_tracks_request self) w).1.2
        { self with m_current := self.m_current.clear }
        (lastfm_request QJsonDocument.null (recent_tracks_request self) w).2).2).1
        + 5000000000) % UINT64_MOD) := by
  have hurl : recent_tracks_request { self with m_current := self.m_current.clear }
      = recent_tracks_request self := rfl
  unfold poll
  dsimp only
  rw [hurl, if_pos h]
  rfl

/-- The source a poll leaves after any other status. -/
theorem poll_fst_bad (self : lastfm_source) (w : World)
    (h : (lastfm_request QJsonDocument.null (recent_tracks_request self) w).1.1 ≠ HTTP_OK) :
    (poll self w).1 = with_next_refresh { self with m_current := self.m_current.clear }
      (((os_gettime_ns ((lastfm_request QJsonDocument.null (recent_tracks_request self) w).2.emit
        (Event.berr "Received error code from last.fm request: %li"))).1
        + 1500000000) % UINT64_MOD) := by
  have hurl : recent_tracks_request { self with m_current := self.m_current.clear }
      = recent_tracks_request self := rfl
  unfold poll
  dsimp only
  rw [hurl, if_neg h]
  rfl

theorem poll_clock (self : lastfm_source) (w : World) :
    (poll self w).2.clock = w.clock := by
  unfold poll
  dsimp only
  split_ifs <;> simp [os_gettime_ns, handle_recent_tracks_clock, lastfm_request_clock]

theorem handle_recent_tracks_members (d : QJsonDocument) (self : lastfm_source) (w : World) :
    (handle_recent_tracks d self w).1.m_username = self.m_username ∧
    (handle_recent_tracks d self w).1.m_api_key = self.m_api_key ∧
    (handle_recent_tracks d self w).1.m_custom_api_key = self.m_custom_api_key := by
  unfold handle_recent_tracks
  dsimp only
  split_ifs
  · obtain ⟨h1, h2, h3, -⟩ := parse_song_members
      ((QJsonArray.at ((d.get "recenttracks").get "track").toArray 0).toObject) self w
    exact ⟨h1, h2, h3⟩
  · exact ⟨rfl, rfl, rfl⟩
  · exact ⟨rfl, rfl, rfl⟩
  · exact ⟨rfl, rfl, rfl⟩

/-- A poll leaves the credentials and the kind of key as they were. -/
theorem poll_members (self : lastfm_source) (w : World) :
    (poll self w).1.m_username = self.m_username ∧
    (poll self w).1.m_api_key = self.m_api_key ∧
    (poll self w).1.m_custom_api_key = self.m_custom_api_key := by
  by_cases h : (lastfm_request QJsonDocument.null (recent_tracks_request self) w).1.1 = HTTP_OK
  · rw [poll_fst_ok self w h, with_next_refresh_m_username, with_next_refresh_m_api_key,
      with_next_refresh_m_custom_api_key]
    exact handle_recent_tracks_members _ _ _
  · rw [poll_fst_bad self w h, with_next_refresh_m_username, with_next_refresh_m_api_key,
      with_next_refresh_m_custom_api_key]
    exact ⟨rfl, rfl, rfl⟩

/-- The time stamp a poll leaves: the reading taken at its end plus 5 s after a
status of 200 and plus 1.5 s otherwise, in `uint64_t` arithmetic. -/
theorem poll_next_refresh (self : lastfm_source) (w : World) :
    (poll self w).1.m_next_refresh =
      (w.clock w.ticks % UINT64_MOD +
        (if (w.server (requests w).length (recent_tracks_request self)).res_ok = true ∧
            (w.server (requests w).length (recent_tracks_request self)).http_code = 200
          then 5000000000 else 1500000000)) % UINT64_MOD := by
  by_cases h : (lastfm_request QJsonDocument.null (recent_tracks_request self) w).1.1 = HTTP_OK
  · rw [poll_fst_ok self w h, with_next_refresh_m_next_refresh,
      if_pos (lastfm_request_ok _ _ _ h), os_gettime_ns_fst, handle_recent_tracks_clock,
      handle_recent_tracks_ticks, lastfm_request_clock, lastfm_request_ticks]
  · have hne : ¬ ((w.server (requests w).length (recent_tracks_request self)).res_ok = true ∧
        (w.server (requests w).length (recent_tracks_request self)).http_code = 200) := by
      intro hboth
      apply h
      rw [lastfm_request_code, if_pos hboth.1, hboth.2]
      rfl
    rw [poll_fst_bad self w h, with_next_refresh_m_next_refresh, if_neg hne,
      os_gettime_ns_fst, emit_clock, emit_ticks, lastfm_request_clock, lastfm_request_ticks]

/-- A call that is rate-limited reads the clock once and does nothing else. -/
theorem refresh_limited_eq (self : lastfm_source) (w : World)
    (hshared : self.m_custom_api_key = false)
    (hkey : self.m_api_key ≠ "") (huser : self.m_username ≠ "")
    (hearly : w.clock w.ticks % UINT64_MOD < self.m_next_refresh) :
    refresh self w = (self, { w with ticks := w.ticks + 1 }) := by
  simp only [refresh]
  rw [if_neg hkey, if_neg huser, if_neg (by simp [hshared])]
  simp only [os_gettime_ns_fst]
  rw [if_pos hearly]
  rfl

/-- A run of calls that are all rate-limited only advances the clock. -/
theorem refresh_times_limited (self : lastfm_source)
    (hshared : self.m_custom_api_key = false)
    (hkey : self.m_api_key ≠ "") (huser : self.m_username ≠ "") :
    ∀ (n : Nat) (w : World),
      (∀ k, k < n → w.clock (w.ticks + k) % UINT64_MOD < self.m_next_refresh) →
      refresh_times n self w = (self, { w with ticks := w.ticks + n }) := by
  intro n
  induction n with
  | zero =>
    intro w _
    rfl
  | succ n ih =>
    intro w hall
    have h0 : w.clock w.ticks % UINT64_MOD < self.m_next_refresh := by
      have := hall 0 (Nat.succ_pos n)
      simpa using this
    have hstep := refresh_limited_eq self w hshared hkey huser h0
    have hrest := ih { w with ticks := w.ticks + 1 } (fun k hk => by
      have := hall (k + 1) (Nat.succ_lt_succ hk)
      have he : w.ticks + 1 + k = w.ticks + (k + 1) := by omega
      show w.clock (w.ticks + 1 + k) % UINT64_MOD < self.m_next_refresh
      rw [he]
      exact this)
    show refresh_times n (refresh self w).1 (refresh self w).2 = _
    rw [hstep, hrest]
    have he : w.ticks + 1 + n = w.ticks + (n + 1) := by omega
    show (self, { w with ticks := w.ticks + 1 + n }) = (self, { w with ticks := w.ticks + (n + 1) })
    rw [he]

end spacing

/-- C4. Custom-key users are never rate-limited: with a non-empty API key, a
non-empty user name and `m_custom_api_key == true`, whatever `m_next_refresh`
and the clock are, `refresh()`
(1) issues the `user.getrecenttracks` request as its first action;
(2) clears the current track: after a status other than 200 the record is the
cleared value, after a status of 200 it is what lines 56-65 make of the cleared
value (the cleared value itself when the answer has no first track), so no
field of the old record survives;
(3) gives the same outcome from any old record, the cleared one included;
(4) never consults the clock for a gate: its only reading is the one that sets
the next interval. -/
theorem refresh_custom_key_polls (self : lastfm_source) (w : World)
    (hkey : self.m_api_key ≠ "") (huser : self.m_username ≠ "")
    (hcustom : self.m_custom_api_key = true) :
    (∃ evs, (refresh self w).2.trace = w.trace ++
      Event.request ("https://ws.audioscrobbler.com/2.0/?method=user.getrecenttracks&user="
        ++ self.m_username ++ "&api_key=" ++ self.m_api_key ++ "&limit=1&format=json") :: evs) ∧
    (refresh self w).1.m_current =
      (if (lastfm_request QJsonDocument.null (recent_tracks_request self) w).1.1 = HTTP_OK then
        (handle_recent_tracks
          (lastfm_request QJsonDocument.null (recent_tracks_request self) w).1.2
          { self with m_current := song.cleared }
          (lastfm_request QJsonDocument.null (recent_tracks_request self) w).2).1.m_current
      else song.cleared) ∧
    ((w.server (requests w).length (recent_tracks_request self)).res_ok = false ∨
      (w.server (requests w).length (recent_tracks_request self)).http_code ≠ 200 →
      (refresh self w).1.m_current = song.cleared) ∧
    ((w.server (requests w).length (recent_tracks_request self)).res_ok = true →
      (w.server (requests w).length (recent_tracks_request self)).http_code = 200 →
      ((w.server (requests w).length (recent_tracks_request self)).json.isNull = true ∨
        ((w.server (requests w).length (recent_tracks_request self)).json.get
          "recenttracks").isObject = false ∨
        (((w.server (requests w).length (recent_tracks_request self)).json.get
          "recenttracks").get "track").isArray = false ∨
        (((w.server (requests w).length (recent_tracks_request self)).json.get
          "recenttracks").get "track").toArray = []) →
      (refresh self w).1.m_current = song.cleared) ∧
    (∀ c : song, refresh { self with m_current := c } w = refresh self w) ∧
    refresh { self with m_current := song.cleared } w = refresh self w ∧
    (refresh self w).2.ticks = w.ticks + 1 := by
  have hr : ∀ c : song, refresh { self with m_current := c } w = poll self w := by
    intro c
    have h := poll_forgets_current self c w
    simp only [refresh]
    rw [if_neg hkey, if_neg huser, if_pos hcustom]
    exact h
  have hself : refresh self w = poll self w := by
    simp only [refresh]
    rw [if_neg hkey, if_neg huser, if_pos hcustom]
  refine ⟨?_, ?_, fun hbad => ?_, fun hok hcode hnone => ?_, fun c => ?_, ?_, ?_⟩
  · rw [hself]
    exact poll_trace self w
  · rw [hself]
    by_cases h : (lastfm_request QJsonDocument.null (recent_tracks_request self) w).1.1
        = HTTP_OK
    · rw [poll_fst_ok self w h, with_next_refresh_m_current, if_pos h]
      rfl
    · rw [poll_fst_bad self w h, with_next_refresh_m_current, if_neg h]
      rfl
  · rw [hself]
    exact (poll_not_ok self w hbad).1
  · rw [hself]
    exact (poll_ok_without_track self w hok hcode hnone).1
  · rw [hr c, hself]
  · rw [hr song.cleared, hself]
  · rw [hself]
    exact poll_ticks self w

/-- C4 at the sample source with a custom key and a stale current track: the
clock reads 7 s, the time stamp says 9 s, and the request goes out all the
same. After a failed transfer the stale record has become the cleared value;
after an answer with the spec's example track nothing of it is left, the album,
which the track does not carry, being empty again. -/
theorem refresh_custom_key_polls_witness :
    (sample_custom_stale.m_api_key ≠ "" ∧ sample_custom_stale.m_username ≠ "" ∧
      sample_custom_stale.m_custom_api_key = true ∧
      (World.start sample_clock []).clock (World.start sample_clock []).ticks % UINT64_MOD
        < sample_custom_stale.m_next_refresh ∧
      sample_custom_stale.m_current ≠ song.cleared) ∧
    (∃ evs, (refresh sample_custom_stale (World.start sample_clock [])).2.trace =
      Event.request
        "https://ws.audioscrobbler.com/2.0/?method=user.getrecenttracks&user=user&api_key=key&limit=1&format=json"
        :: evs) ∧
    (refresh sample_custom_stale (World.start sample_clock [])).2.ticks = 1 ∧
    (refresh sample_custom_stale (World.start sample_clock [])).1.m_current = song.cleared ∧
    (refresh sample_custom_stale (World.start sample_clock
      [reply_with 200 sample_no_tracks])).1.m_current = song.cleared ∧
    (refresh sample_custom_stale (World.start sample_clock
      [reply_with 200 sample_recent_tracks, reply_with 200 sample_track_info])).1.m_current =
      { playing := true, artists := ["A"], album := "", title := "T",
        durationSeconds := 215, coverLink := "http://x/y.jpg" } :=
  ⟨⟨by decide, by decide, rfl, by decide, by decide⟩,
    (refresh_custom_key_polls sample_custom_stale (World.start sample_clock [])
      (by decide) (by decide) rfl).1,
    (refresh_custom_key_polls sample_custom_stale (World.start sample_clock [])
      (by decide) (by decide) rfl).2.2.2.2.2.2,
    (refresh_custom_key_polls sample_custom_stale (World.start sample_clock [])
      (by decide) (by decide) rfl).2.2.1 (Or.inl rfl),
    (refresh_custom_key_polls sample_custom_stale
      (World.start sample_clock [reply_with 200 sample_no_tracks])
      (by decide) (by decide) rfl).2.2.2.1 rfl rfl (Or.inr (Or.inr (Or.inr rfl))),
    (refresh_custom_key_polls sample_custom_stale
      (World.start sample_clock [reply_with 200 sample_recent_tracks,
        reply_with 200 sample_track_info])
      (by decide) (by decide) rfl).2.1⟩


/-- C18, with the condition that the time stamp does not wrap. With the shared
key and non-empty credentials, after a call of
`refresh()` that polled (it passed the rate-limit gate), and as long as the time
stamp does not wrap (the clock reading `done` taken at the end of that poll is
below 2^64 - 5 000 000 000):
(1) a later `refresh()` whose clock reading is below `done` + 1.5 s issues no
request and changes nothing in the source;
(2) when the primary call of the poll returned HTTP 200, the same holds for a
clock reading below `done` + 5 s;
(3) with a non-decreasing clock, in the run of successive calls that follows the
poll, every call up to and including one whose reading is still below `done`
plus the interval issues no request: the next primary request can only come
from a call whose reading is at least `done` plus the interval. -/
theorem refresh_spacing (self : lastfm_source) (w : World)
    (hshared : self.m_custom_api_key = false)
    (hkey : self.m_api_key ≠ "") (huser : self.m_username ≠ "")
    (hgate : ¬ (w.clock w.ticks % UINT64_MOD < self.m_next_refresh))
    (hfit : w.clock (w.ticks + 1) % UINT64_MOD + 5000000000 < UINT64_MOD) :
    (∀ w2 : World,
      w2.clock w2.ticks % UINT64_MOD < w.clock (w.ticks + 1) % UINT64_MOD + 1500000000 →
      requests (refresh (refresh self w).1 w2).2 = requests w2 ∧
      (refresh (refresh self w).1 w2).1 = (refresh self w).1) ∧
    ((w.server (requests w).length (recent_tracks_request self)).res_ok = true ∧
      (w.server (requests w).length (recent_tracks_request self)).http_code = 200 →
      ∀ w2 : World,
        w2.clock w2.ticks % UINT64_MOD < w.clock (w.ticks + 1) % UINT64_MOD + 5000000000 →
        requests (refresh (refresh self w).1 w2).2 = requests w2 ∧
        (refresh (refresh self w).1 w2).1 = (refresh self w).1) ∧
    (∀ n : Nat,
      (∀ i j : Nat, i ≤ j → w.clock i % UINT64_MOD ≤ w.clock j % UINT64_MOD) →
      w.clock (w.ticks + 2 + n) % UINT64_MOD < w.clock (w.ticks + 1) % UINT64_MOD +
        (if (w.server (requests w).length (recent_tracks_request self)).res_ok = true ∧
            (w.server (requests w).length (recent_tracks_request self)).http_code = 200
          then 5000000000 else 1500000000) →
      requests (refresh_times (n + 1) (refresh self w).1 (refresh self w).2).2
        = requests (refresh self w).2 ∧
      (refresh_times (n + 1) (refresh self w).1 (refresh self w).2).1
        = (refresh self w).1) := by
  have hpoll : refresh self w = poll self { w with ticks := w.ticks + 1 } := by
    have h := refresh_past_gates self w hkey huser (Or.inr hgate)
    rw [if_neg (by simp [hshared])] at h
    exact h
  obtain ⟨muser, mkey, mcustom⟩ := poll_members self { w with ticks := w.ticks + 1 }
  have hnext := poll_next_refresh self { w with ticks := w.ticks + 1 }
  have hclock := poll_clock self { w with ticks := w.ticks + 1 }
  have hticks := poll_ticks self { w with ticks := w.ticks + 1 }
  rw [← hpoll] at muser mkey mcustom hnext hclock hticks
  have hreq : requests ({ w with ticks := w.ticks + 1 } : World) = requests w := rfl
  have hstamp : (refresh self w).1.m_next_refresh =
      w.clock (w.ticks + 1) % UINT64_MOD +
        (if (w.server (requests w).length (recent_tracks_request self)).res_ok = true ∧
            (w.server (requests w).length (recent_tracks_request self)).http_code = 200
          then 5000000000 else 1500000000) := by
    rw [hnext, hreq]
    apply Nat.mod_eq_of_lt
    show w.clock (w.ticks + 1) % UINT64_MOD + _ < UINT64_MOD
    split_ifs <;> omega
  have hshared1 : (refresh self w).1.m_custom_api_key = false := by rw [mcustom, hshared]
  have hkey1 : (refresh self w).1.m_api_key ≠ "" := by rw [mkey]; exact hkey
  have huser1 : (refresh self w).1.m_username ≠ "" := by rw [muser]; exact huser
  have hlimited : ∀ w2 : World,
      w2.clock w2.ticks % UINT64_MOD < (refresh self w).1.m_next_refresh →
      requests (refresh (refresh self w).1 w2).2 = requests w2 ∧
      (refresh (refresh self w).1 w2).1 = (refresh self w).1 := by
    intro w2 hearly
    rw [refresh_limited_eq (refresh self w).1 w2 hshared1 hkey1 huser1 hearly]
    exact ⟨rfl, rfl⟩
  refine ⟨fun w2 h2 => hlimited w2 ?_, fun hok w2 h2 => hlimited w2 ?_, fun n hmono hlast => ?_⟩
  · rw [hstamp]
    split_ifs <;> omega
  · rw [hstamp, if_pos hok]
    exact h2
  · have hall : ∀ k, k < n + 1 →
        (refresh self w).2.clock ((refresh self w).2.ticks + k) % UINT64_MOD
          < (refresh self w).1.m_next_refresh := by
      intro k hk
      rw [hclock, hticks, hstamp]
      have hle := hmono (w.ticks + 1 + 1 + k) (w.ticks + 2 + n) (by omega)
      exact Nat.lt_of_le_of_lt hle hlast
    rw [refresh_times_limited (refresh self w).1 hshared1 hkey1 huser1 (n + 1)
      (refresh self w).2 hall]
    exact ⟨rfl, rfl⟩

/-- C18 at the sample source: the poll ends at 7 000 000 001 ns with HTTP 200,
so the next poll is due at 12 000 000 001 ns. A call at 8 s and a call at 12 s
issue no request, and neither do the four calls that follow the poll while the
clock stays near 7 s. -/
theorem refresh_spacing_witness :
    (sample_source.m_custom_api_key = false ∧
      ¬ ((World.start sample_slow_clock [reply_with 200 sample_no_tracks]).clock 0
        % UINT64_MOD < sample_source.m_next_refresh) ∧
      (World.start sample_slow_clock [reply_with 200 sample_no_tracks]).clock 1
        % UINT64_MOD + 5000000000 < UINT64_MOD) ∧
    requests (refresh (refresh sample_source
        (World.start sample_slow_clock [reply_with 200 sample_no_tracks])).1
        (World.start (fun _ => 8000000000) [])).2
      = requests (World.start (fun _ => 8000000000) []) ∧
    requests (refresh (refresh sample_source
        (World.start sample_slow_clock [reply_with 200 sample_no_tracks])).1
        (World.start (fun _ => 12000000000) [])).2
      = requests (World.start (fun _ => 12000000000) []) ∧
    requests (refresh_times 4 (refresh sample_source
        (World.start sample_slow_clock [reply_with 200 sample_no_tracks])).1
        (refresh sample_source
          (World.start sample_slow_clock [reply_with 200 sample_no_tracks])).2).2
      = requests (refresh sample_source
          (World.start sample_slow_clock [reply_with 200 sample_no_tracks])).2 :=
  ⟨⟨rfl, by decide, by decide⟩,
    ((refresh_spacing sample_source
      (World.start sample_slow_clock [reply_with 200 sample_no_tracks])
      rfl (by decide) (by decide) (by decide) (by decide)).1
      (World.start (fun _ => 8000000000) []) (by decide)).1,
    ((refresh_spacing sample_source
      (World.start sample_slow_clock [reply_with 200 sample_no_tracks])
      rfl (by decide) (by decide) (by decide) (by decide)).2.1 ⟨rfl, rfl⟩
      (World.start (fun _ => 12000000000) []) (by decide)).1,
    ((refresh_spacing sample_source
      (World.start sample_slow_clock [reply_with 200 sample_no_tracks])
      rfl (by decide) (by decide) (by decide) (by decide)).2.2 3
      (fun i j h => by
        show sample_slow_clock i % UINT64_MOD ≤ sample_slow_clock j % UINT64_MOD
        unfold sample_slow_clock UINT64_MOD
        omega)
      (by decide)).1⟩

/-- C18 fails as stated when the time stamp wraps. The clock stands at
2^64 - 1 ns, so it is non-decreasing; the source has the shared key and
non-empty credentials. The first call polls and, its transfer failing, sets the
time stamp to 2^64 - 1 + 1 500 000 000 modulo 2^64, which is 1 499 999 999. The
next call reads the clock at 2^64 - 1, which is earlier than 1.5 s after the
end of the first poll, and polls again: two primary requests with no time
between them. After a status of 200 the time stamp wraps to 4 999 999 999 and
the same happens. -/
theorem refresh_spacing_counterexample :
    (sample_source.m_custom_api_key = false ∧ sample_source.m_api_key ≠ "" ∧
      sample_source.m_username ≠ "") ∧
    (∀ i j : Nat, i ≤ j →
      (World.start sample_wrap_clock []).clock i % UINT64_MOD
        ≤ (World.start sample_wrap_clock []).clock j % UINT64_MOD) ∧
    requests (refresh sample_source (World.start sample_wrap_clock [])).2 =
      ["https://ws.audioscrobbler.com/2.0/?method=user.getrecenttracks&user=user&api_key=key&limit=1&format=json"] ∧
    (refresh sample_source (World.start sample_wrap_clock [])).1.m_next_refresh = 1499999999 ∧
    ¬ ((refresh sample_source (World.start sample_wrap_clock [])).2.clock
          (refresh sample_source (World.start sample_wrap_clock [])).2.ticks % UINT64_MOD
        < (World.start sample_wrap_clock []).clock
            ((World.start sample_wrap_clock []).ticks + 1) % UINT64_MOD + 1500000000 →
      requests (refresh (refresh sample_source (World.start sample_wrap_clock [])).1
          (refresh sample_source (World.start sample_wrap_clock [])).2).2
        = requests (refresh sample_source (World.start sample_wrap_clock [])).2) ∧
    requests (refresh_times 2 sample_source (World.start sample_wrap_clock [])).2 =
      ["https://ws.audioscrobbler.com/2.0/?method=user.getrecenttracks&user=user&api_key=key&limit=1&format=json",
       "https://ws.audioscrobbler.com/2.0/?method=user.getrecenttracks&user=user&api_key=key&limit=1&format=json"] ∧
    (refresh sample_source (World.start sample_wrap_clock
      [reply_with 200 sample_no_tracks, reply_with 200 sample_no_tracks])).1.m_next_refresh
      = 4999999999 ∧
    (requests (refresh_times 2 sample_source (World.start sample_wrap_clock
      [reply_with 200 sample_no_tracks, reply_with 200 sample_no_tracks])).2).length = 2 := by
  refine ⟨by decide, fun i j _ => Nat.le_refl _, by decide, by decide, fun h => ?_,
    by decide, by decide, by decide⟩
  exact absurd (h (by decide)) (by decide)

/-! ## Evaluation on concrete inputs -/

section evaluation

theorem toPercentEncoding_sample : toPercentEncoding "A b/é" = "A%20b%2F%C3%A9" := by decide

theorem QString_toInt_samples :
    QString_toInt " 215 " = some 215 ∧ QString_toInt "-7" = some (-7) ∧
    QString_toInt "2147483648" = none ∧ QString_toInt "1e3" = none ∧
    QString_toInt "" = none := by decide

/-- The pattern of `valid_format`, read as `QRegularExpression` reads it. -/
theorem reg_eq :
    reg = [[Atom.lit '/', Atom.lit '%', Atom.cls ['p', '|', 'P']],
      [Atom.lit '%', Atom.cls ['r', '|', 'R']], [Atom.lit '%', Atom.cls ['b', '|', 'B']],
      [Atom.lit '%', Atom.cls ['y', '|', 'Y']], [Atom.lit '%', Atom.cls ['d', '|', 'D']],
      [Atom.lit '%', Atom.cls ['n', '|', 'N'], Atom.lit '/', Atom.lit 'g', Atom.lit 'm']] := by
  decide

/-- A whole poll at the spec's example: a now-playing track, then its duration. -/
theorem refresh_sample_poll :
    (refresh sample_source (World.start sample_clock
      [reply_with 200 (QJsonDocument.object [("recenttracks", QJsonValue.object
        [("track", QJsonValue.array [QJsonValue.object sample_track])])]),
       reply_with 200 sample_track_info])).1.m_current =
      { playing := true, artists := ["A"], album := "", title := "T",
        durationSeconds := 215, coverLink := "http://x/y.jpg" } := by
  decide

end evaluation

end Tuna
